import Mathlib

/-!
# PhotoBooth: capture pipeline, countdown sequencer and camera acquisition

A shallow embedding of `src/frontend/src/components/PhotoBooth.js`.

* JavaScript numbers are embedded as rationals, every arithmetic operation of the
  source being followed by a rounding function `fl`. With `fl = roundDouble` this
  is IEEE double arithmetic (round to nearest, ties to even; the values at hand
  stay far inside the normal exponent range, which is left unbounded); with
  `fl = exact` it is exact rational arithmetic. The one division whose divisor can
  be zero (`video.videoWidth / video.videoHeight`) goes through `JSNumber`, which
  keeps the infinities and NaN apart.
* The 2D canvas is embedded as its size, its drawing state (current transform,
  filter, save stack) and the list of blits performed since it was last reset.
* The timer driven sequencer is embedded as a discrete event machine: pending
  timers carry the variables their callbacks close over.
-/

namespace PhotoBooth

/-! ## Numbers -/

/-- Round to the nearest integer, ties to the even one. -/
def roundHalfEven (m : ℚ) : ℤ :=
  if m - ⌊m⌋ < 1 / 2 then ⌊m⌋
  else if 1 / 2 < m - ⌊m⌋ then ⌊m⌋ + 1
  else if ⌊m⌋ % 2 = 0 then ⌊m⌋ else ⌊m⌋ + 1

/-- The double nearest to `q`: 53 significant bits, ties to even. -/
def roundDouble (q : ℚ) : ℚ :=
  if q = 0 then 0
  else
    let ulp : ℚ := 2 ^ (Int.log 2 |q| - 52)
    (if q < 0 then -1 else 1) * (roundHalfEven (|q| / ulp) : ℚ) * ulp

/-- No rounding: exact rational arithmetic. -/
def exact (q : ℚ) : ℚ := q

/-- Result of a JavaScript division of two finite numbers. -/
inductive JSNumber where
  | finite (q : ℚ)
  | posInf
  | negInf
  | nan
  deriving DecidableEq

/-- The quotient `a / b` of finite numbers under rounding `fl`, a zero divisor
being `+0`. -/
def JSNumber.div (fl : ℚ → ℚ) (a b : ℚ) : JSNumber :=
  if b = 0 then
    if a = 0 then JSNumber.nan
    else if 0 < a then JSNumber.posInf
    else JSNumber.negInf
  else JSNumber.finite (fl (a / b))

/-- The comparison `x > y` against a finite number `y`. -/
def JSNumber.gt (x : JSNumber) (y : ℚ) : Bool :=
  match x with
  | JSNumber.finite q => decide (y < q)
  | JSNumber.posInf => true
  | JSNumber.negInf => false
  | JSNumber.nan => false

/-! ## Canvas 2D surface -/

/-- The values the component ever passes to `setFilter`. -/
inductive CssFilter where
  | none
  | grayscale100
  | sepia100
  deriving DecidableEq, Repr

/-- The CSS text of a filter value. -/
def CssFilter.css : CssFilter → String
  | CssFilter.none => "none"
  | CssFilter.grayscale100 => "grayscale(100%)"
  | CssFilter.sepia100 => "sepia(100%)"

/-- Affine transform `[a c e; b d f; 0 0 1]` of a 2D context. -/
structure Matrix2D where
  a : ℚ
  b : ℚ
  c : ℚ
  d : ℚ
  e : ℚ
  f : ℚ
  deriving DecidableEq

/-- The identity transform. -/
def Matrix2D.identity : Matrix2D := ⟨1, 0, 0, 1, 0, 0⟩

/-- The product `m * n` (apply `n` first, then `m`). -/
def Matrix2D.mul (m n : Matrix2D) : Matrix2D :=
  { a := m.a * n.a + m.c * n.b
    b := m.b * n.a + m.d * n.b
    c := m.a * n.c + m.c * n.d
    d := m.b * n.c + m.d * n.d
    e := m.a * n.e + m.c * n.f + m.e
    f := m.b * n.e + m.d * n.f + m.f }

/-- Image of the point `(x, y)` under the transform. -/
def Matrix2D.apply (m : Matrix2D) (x y : ℚ) : ℚ × ℚ :=
  (m.a * x + m.c * y + m.e, m.b * x + m.d * y + m.f)

/-- What a blit reads from. -/
inductive DrawSource where
  | video
  | canvas
  deriving DecidableEq, Repr

/-- One executed `drawImage`: the source and its intrinsic size, the source
rectangle, the destination rectangle in user space, and the transform and filter
in force when it ran. -/
structure DrawOp where
  source : DrawSource
  iw : ℚ
  ih : ℚ
  sx : ℚ
  sy : ℚ
  sw : ℚ
  sh : ℚ
  dx : ℚ
  dy : ℚ
  dw : ℚ
  dh : ℚ
  transform : Matrix2D
  filter : CssFilter
  deriving DecidableEq

/-- Drawing state of a 2D context. -/
structure Context2D where
  transform : Matrix2D
  filter : CssFilter
  stack : List (Matrix2D × CssFilter)
  deriving DecidableEq

/-- The drawing state of a freshly reset context. -/
def Context2D.initial : Context2D := ⟨Matrix2D.identity, CssFilter.none, []⟩

/-- A canvas element: bitmap size, drawing state, and the blits that make up the
bitmap since the last reset. -/
structure Canvas where
  width : ℕ
  height : ℕ
  context : Context2D
  ops : List DrawOp
  deriving DecidableEq

/-- Assignment `canvas.width = n`: clears the bitmap and resets the context. -/
def Canvas.setWidth (c : Canvas) (n : ℕ) : Canvas :=
  { width := n, height := c.height, context := Context2D.initial, ops := [] }

/-- Assignment `canvas.height = n`: clears the bitmap and resets the context. -/
def Canvas.setHeight (c : Canvas) (n : ℕ) : Canvas :=
  { width := c.width, height := n, context := Context2D.initial, ops := [] }

/-- The call `context.save()`. -/
def Canvas.save (c : Canvas) : Canvas :=
  { c with context :=
      { c.context with stack := (c.context.transform, c.context.filter) :: c.context.stack } }

/-- The call `context.restore()`. -/
def Canvas.restore (c : Canvas) : Canvas :=
  match c.context.stack with
  | [] => c
  | (m, fl) :: rest => { c with context := { transform := m, filter := fl, stack := rest } }

/-- The call `context.translate(tx, ty)`. -/
def Canvas.translate (c : Canvas) (tx ty : ℚ) : Canvas :=
  { c with context :=
      { c.context with transform := c.context.transform.mul ⟨1, 0, 0, 1, tx, ty⟩ } }

/-- The call `context.scale(kx, ky)`. -/
def Canvas.scale (c : Canvas) (kx ky : ℚ) : Canvas :=
  { c with context :=
      { c.context with transform := c.context.transform.mul ⟨kx, 0, 0, ky, 0, 0⟩ } }

/-- Assignment `context.filter = fl`. -/
def Canvas.setFilter (c : Canvas) (fl : CssFilter) : Canvas :=
  { c with context := { c.context with filter := fl } }

/-- The nine argument `context.drawImage(src, sx, sy, sw, sh, dx, dy, dw, dh)`, the
source having intrinsic size `iw` by `ih`; nothing is painted when the source
rectangle has zero width or height. -/
def Canvas.drawImage (c : Canvas) (src : DrawSource) (iw ih : ℚ)
    (sx sy sw sh dx dy dw dh : ℚ) : Canvas :=
  if sw = 0 ∨ sh = 0 then c
  else
    { c with ops := c.ops ++
        [{ source := src, iw := iw, ih := ih, sx := sx, sy := sy, sw := sw, sh := sh,
           dx := dx, dy := dy, dw := dw, dh := dh,
           transform := c.context.transform, filter := c.context.filter }] }

/-- The three argument `context.drawImage(canvas, dx, dy)` with the canvas itself as
source: the whole bitmap, at its own size. -/
def Canvas.drawSelf (c : Canvas) (dx dy : ℚ) : Canvas :=
  c.drawImage DrawSource.canvas c.width c.height 0 0 c.width c.height dx dy c.width c.height

/-- A video element as `capturePhoto` sees it: the intrinsic frame size. -/
structure Video where
  videoWidth : ℕ
  videoHeight : ℕ
  deriving DecidableEq, Repr

/-- The value of `canvas.toDataURL("image/png")`: a lossless encoding of the
bitmap, kept as the bitmap's size and content. Such a value is a non-empty
string in the source, hence truthy. -/
structure Image where
  width : ℕ
  height : ℕ
  ops : List DrawOp
  deriving DecidableEq

/-- The call `canvas.toDataURL("image/png")`. -/
def Canvas.toDataURL (c : Canvas) : Image :=
  { width := c.width, height := c.height, ops := c.ops }

/-! ## capturePhoto -/

/-- The constant `targetWidth`. -/
def targetWidth : ℕ := 1280

/-- The constant `targetHeight`. -/
def targetHeight : ℕ := 720

/-- The constant `targetRatio = targetWidth / targetHeight`. -/
def targetRatio (fl : ℚ → ℚ) : ℚ := fl ((targetWidth : ℚ) / (targetHeight : ℚ))

/-- Source rectangle of the crop. -/
structure Crop where
  startX : ℚ
  startY : ℚ
  drawWidth : ℚ
  drawHeight : ℚ
  deriving DecidableEq

/-- The crop computation of `capturePhoto` (lines 124 to 140) for a frame of
width `vw` and height `vh`, every operation rounded by `fl`. -/
def cropRect (fl : ℚ → ℚ) (vw vh : ℚ) : Crop :=
  let videoRatio := JSNumber.div fl vw vh
  if videoRatio.gt (targetRatio fl) then
    let drawWidth := fl (vh * targetRatio fl)
    { startX := fl (fl (vw - drawWidth) / 2), startY := 0,
      drawWidth := drawWidth, drawHeight := vh }
  else
    let drawHeight := fl (vw / targetRatio fl)
    { startX := 0, startY := fl (fl (vh - drawHeight) / 2),
      drawWidth := vw, drawHeight := drawHeight }

/-- The mirrored crop draw of `capturePhoto` (lines 120 to 153): size the canvas,
flip it, blit the cropped frame over the whole destination, restore. -/
def mirroredCropDraw (fl : ℚ → ℚ) (video : Video) (canvas : Canvas) : Canvas :=
  let c := (canvas.setWidth targetWidth).setHeight targetHeight
  let r := cropRect fl video.videoWidth video.videoHeight
  let c := c.save
  let c := c.translate c.width 0
  let c := c.scale (-1) 1
  let c := c.drawImage DrawSource.video video.videoWidth video.videoHeight
    r.startX r.startY r.drawWidth r.drawHeight 0 0 targetWidth targetHeight
  c.restore

/-- The filter pass of `capturePhoto` (lines 156 to 160). -/
def filterPass (fl : CssFilter) (c : Canvas) : Canvas :=
  if fl ≠ CssFilter.none then
    ((c.setFilter fl).drawSelf 0 0).setFilter CssFilter.none
  else c

/-- The function `capturePhoto`, with the arithmetic `fl`, `videoRef.current`,
`canvasRef.current` and the `filter` variable its closure reads as arguments.
Returns the value handed back to the caller (`none` for `undefined`) and the
canvas as the call leaves it. -/
def capturePhoto (fl : ℚ → ℚ) (video : Option Video) (canvas : Option Canvas)
    (filter : CssFilter) : Option Image × Option Canvas :=
  match video, canvas with
  | some v, some c =>
    let c := filterPass filter (mirroredCropDraw fl v c)
    (some c.toDataURL, some c)
  | _, _ => (none, canvas)

/-! ## Countdown sequencer -/

/-- A recorded call made by the sequencer, in program order. -/
inductive Event (α : Type) where
  | setCapturing (b : Bool)
  | setCountdown (v : Option ℤ)
  | clearInterval
  | capturePhoto (filter : CssFilter) (result : Option α)
  | photosTaken (n : ℕ)
  | setCapturedImages (imgs : List α)
  | setImages (imgs : List α)
  | navigate (route : String)
  deriving DecidableEq, Repr

/-- A pending timer callback together with the variables it closes over: the
`filter` of the render whose `startCountdown` began the session (read by that
render's `capturePhoto`), `photosTaken`, `newCapturedImages` and, for the
interval, `timeLeft`. -/
inductive Task (α : Type) where
  | tick (filter : CssFilter) (photosTaken : ℕ) (newCapturedImages : List α) (timeLeft : ℤ)
  | captureSequence (filter : CssFilter) (photosTaken : ℕ) (newCapturedImages : List α)
  | navigate (route : String)
  deriving DecidableEq, Repr

/-- A pending timer: when it is due (in ms) and what it runs. -/
structure Timer (α : Type) where
  due : ℕ
  task : Task α
  deriving DecidableEq, Repr

/-- State of the component as far as the sequencer goes: the React state
(`capturedImages`, `filter`, `countdown`, `capturing`), the clock, the pending
timers and the record of calls made so far, each with the time it was made at. -/
structure Booth (α : Type) where
  capturedImages : List α
  filter : CssFilter
  countdown : Option ℤ
  capturing : Bool
  now : ℕ
  timers : List (Timer α)
  log : List (ℕ × Event α)
  deriving DecidableEq, Repr

/-- Append calls to the record, stamped with the current time. -/
def Booth.emit {α : Type} (s : Booth α) (es : List (Event α)) : Booth α :=
  { s with log := s.log ++ es.map (fun e => (s.now, e)) }

/-- Register a timer firing `delay` ms from now. -/
def Booth.schedule {α : Type} (s : Booth α) (delay : ℕ) (t : Task α) : Booth α :=
  { s with timers := s.timers ++ [{ due := s.now + delay, task := t }] }

/-- The state setter `setFilter` behind the three filter buttons (lines 190 to
192), which stay enabled during a session. -/
def setFilter {α : Type} (filter : CssFilter) (s : Booth α) : Booth α :=
  { s with filter := filter }

/-- The function `captureSequence` (lines 66 to 103), up to the point where it
returns to the event loop; `photosTaken` and `newCapturedImages` are the variables
of the enclosing `startCountdown` call and `filter` is the variable that the
`capturePhoto` in its scope reads. -/
def captureSequence {α : Type} (filter : CssFilter) (photosTaken : ℕ)
    (newCapturedImages : List α) (s : Booth α) : Booth α :=
  if photosTaken ≥ 4 then
    let s := { s with countdown := none }.emit [Event.setCountdown none]
    let s := { s with capturing := false }.emit [Event.setCapturing false]
    let s := s.emit [Event.setCapturedImages newCapturedImages]
    let s := { s with capturedImages := newCapturedImages }.emit
      [Event.setImages newCapturedImages]
    s.schedule 200 (Task.navigate "/preview")
  else
    let timeLeft : ℤ := 3
    let s := { s with countdown := some timeLeft }.emit [Event.setCountdown (some timeLeft)]
    s.schedule 1000 (Task.tick filter photosTaken newCapturedImages timeLeft)

/-- The function `startCountdown` (lines 59 to 106), as the click handler of the
current render: the `capturePhoto` it reaches through `captureSequence` is the one
of this render and reads this render's `filter`. -/
def startCountdown {α : Type} (s : Booth α) : Booth α :=
  if s.capturing then s
  else
    let filter := s.filter
    let s := { s with capturing := true }.emit [Event.setCapturing true]
    captureSequence filter 0 [] s

/-- The interval callback (lines 88 to 102), fired at its due time `due`;
`capturePhoto` is the outcome of the `capturePhoto()` call should it be made, and
`filter` the variable that call reads. -/
def tick {α : Type} (capturePhoto : Option α) (due : ℕ) (filter : CssFilter)
    (photosTaken : ℕ) (newCapturedImages : List α) (timeLeft : ℤ) (s : Booth α) : Booth α :=
  let timeLeft := timeLeft - 1
  let s := { s with countdown := some timeLeft }.emit [Event.setCountdown (some timeLeft)]
  if timeLeft = 0 then
    let s := s.emit [Event.clearInterval]
    let s := s.emit [Event.capturePhoto filter capturePhoto]
    match capturePhoto with
    | some imageUrl =>
      let newCapturedImages := newCapturedImages ++ [imageUrl]
      let s := { s with capturedImages := s.capturedImages ++ [imageUrl] }.emit
        [Event.setImages (s.capturedImages ++ [imageUrl])]
      let photosTaken := photosTaken + 1
      let s := s.emit [Event.photosTaken photosTaken]
      s.schedule 1000 (Task.captureSequence filter photosTaken newCapturedImages)
    | none =>
      let photosTaken := photosTaken + 1
      let s := s.emit [Event.photosTaken photosTaken]
      s.schedule 1000 (Task.captureSequence filter photosTaken newCapturedImages)
  else
    { s with timers := s.timers ++
        [{ due := due + 1000,
           task := Task.tick filter photosTaken newCapturedImages timeLeft }] }

/-- Take the timer that is due first out of the list (the earlier registered one
on a tie). -/
def extractEarliest {α : Type} : List (Timer α) → Option (Timer α × List (Timer α))
  | [] => none
  | t :: ts =>
    match extractEarliest ts with
    | none => some (t, [])
    | some (u, rest) => if t.due ≤ u.due then some (t, ts) else some (u, t :: rest)

/-- Run one timer callback; `camera t filter` is what a `capturePhoto()` call made
at time `t` returns when the `filter` variable it reads has that value. -/
def fire {α : Type} (camera : ℕ → CssFilter → Option α) (t : Timer α) (s : Booth α) :
    Booth α :=
  match t.task with
  | Task.tick filter photosTaken acc timeLeft =>
    tick (camera s.now filter) t.due filter photosTaken acc timeLeft s
  | Task.captureSequence filter photosTaken acc => captureSequence filter photosTaken acc s
  | Task.navigate route => s.emit [Event.navigate route]

/-- One turn of the event loop: advance the clock to the next due timer and run
it; `none` when no timer is pending. -/
def step {α : Type} (camera : ℕ → CssFilter → Option α) (s : Booth α) : Option (Booth α) :=
  match extractEarliest s.timers with
  | none => none
  | some (t, rest) => some (fire camera t { s with timers := rest, now := max s.now t.due })

/-- Run the event loop for at most `fuel` turns, stopping when no timer is left. -/
def run {α : Type} (camera : ℕ → CssFilter → Option α) : ℕ → Booth α → Booth α
  | 0, s => s
  | fuel + 1, s =>
    match step camera s with
    | none => s
    | some s' => run camera fuel s'

/-- The argument lists of the `setCapturedImages` calls in a record. -/
def published {α : Type} (log : List (ℕ × Event α)) : List (List α) :=
  log.filterMap (fun e => match e.2 with
    | Event.setCapturedImages imgs => some imgs
    | _ => none)

/-- The routes of the `navigate` calls in a record. -/
def navigations {α : Type} (log : List (ℕ × Event α)) : List String :=
  log.filterMap (fun e => match e.2 with
    | Event.navigate route => some route
    | _ => none)

/-- The countdown display updates, interval cancellations, captures and counter
advances in a record, with their times. -/
def countdownTrace {α : Type} (log : List (ℕ × Event α)) : List (ℕ × Event α) :=
  log.filter (fun e => match e.2 with
    | Event.setCountdown _ => true
    | Event.clearInterval => true
    | Event.capturePhoto _ _ => true
    | Event.photosTaken _ => true
    | _ => false)

/-- The values `photosTaken` is advanced to in a record, in order. -/
def counterValues {α : Type} (log : List (ℕ × Event α)) : List ℕ :=
  log.filterMap (fun e => match e.2 with
    | Event.photosTaken n => some n
    | _ => none)

/-- The component at rest: filter `none`, nothing displayed, not capturing, no
timer pending. -/
def Booth.idle {α : Type} (now : ℕ) (thumbs : List α) : Booth α :=
  { capturedImages := thumbs, filter := CssFilter.none, countdown := none, capturing := false,
    now := now, timers := [], log := [] }

/-- The captures in a record: time, the `filter` the call read, and its result. -/
def captures {α : Type} (log : List (ℕ × Event α)) : List (ℕ × CssFilter × Option α) :=
  log.filterMap (fun e => match e.2 with
    | Event.capturePhoto filter result => some (e.1, filter, result)
    | _ => none)

/-! ## Where drawn content lands -/

/-- Whether a blit reads the source point `(x, y)`: the point lies in the source
rectangle and in the source itself. -/
def DrawOp.covers (op : DrawOp) (x y : ℚ) : Bool :=
  decide (op.sx ≤ x ∧ x ≤ op.sx + op.sw ∧ op.sy ≤ y ∧ y ≤ op.sy + op.sh ∧
    0 ≤ x ∧ x ≤ op.iw ∧ 0 ≤ y ∧ y ≤ op.ih)

/-- Device position at which a blit paints the source point `(x, y)`, if it reads
it: the source rectangle is stretched over the destination rectangle, then the
transform in force is applied. -/
def DrawOp.place (op : DrawOp) (x y : ℚ) : Option (ℚ × ℚ) :=
  if op.covers x y then
    some (op.transform.apply (op.dx + (x - op.sx) * op.dw / op.sw)
      (op.dy + (y - op.sy) * op.dh / op.sh))
  else none

/-- Whether a device position lies on a raster of the given size. -/
def onRaster (width height : ℕ) (p : ℚ × ℚ) : Bool :=
  decide (0 ≤ p.1 ∧ p.1 ≤ width ∧ 0 ≤ p.2 ∧ p.2 ≤ height)

/-- Follow the video point `(x, y)` through a list of blits onto a raster of the
given size: a blit from the video paints it where it lands on the raster, a blit
from the canvas paints again what is on the canvas. `pos` is where the point
sits before the list runs (`none`: not painted). -/
def placeThrough (width height : ℕ) (x y : ℚ) :
    List DrawOp → Option (ℚ × ℚ) → Option (ℚ × ℚ)
  | [], pos => pos
  | op :: ops, pos =>
    match op.source with
    | DrawSource.video =>
      match (op.place x y).filter (onRaster width height) with
      | some p => placeThrough width height x y ops (some p)
      | none => placeThrough width height x y ops pos
    | DrawSource.canvas =>
      match (pos.bind (fun p => op.place p.1 p.2)).filter (onRaster width height) with
      | some p => placeThrough width height x y ops (some p)
      | none => placeThrough width height x y ops pos

/-- Position in the captured image of the video point `(x, y)`; `none` when the
image does not show it. -/
def Image.destination (img : Image) (x y : ℚ) : Option (ℚ × ℚ) :=
  placeThrough img.width img.height x y img.ops none

/-- The transform in force during the crop blit: flip about the vertical axis,
then shift right by the canvas width. -/
def mirror : Matrix2D := ⟨-1, 0, 0, 1, 1280, 0⟩

/-- The blit of the crop `r` of a video over the whole destination, under the
mirror. -/
def cropOp (v : Video) (r : Crop) : DrawOp :=
  { source := DrawSource.video, iw := v.videoWidth, ih := v.videoHeight,
    sx := r.startX, sy := r.startY,
    sw := r.drawWidth, sh := r.drawHeight, dx := 0, dy := 0, dw := 1280, dh := 720,
    transform := mirror, filter := CssFilter.none }

/-- The blit of the canvas onto itself under filter `fl`. -/
def selfOp (fl : CssFilter) : DrawOp :=
  { source := DrawSource.canvas, iw := 1280, ih := 720, sx := 0, sy := 0, sw := 1280, sh := 720,
    dx := 0, dy := 0, dw := 1280, dh := 720,
    transform := Matrix2D.identity, filter := fl }

/-- The crop rectangle `capturePhoto` computes for a video element. -/
def Video.crop (fl : ℚ → ℚ) (v : Video) : Crop := cropRect fl v.videoWidth v.videoHeight

/-- Whether the point `(x, y)` lies in the crop rectangle and in the frame. -/
def Video.inCrop (fl : ℚ → ℚ) (v : Video) (x y : ℚ) : Bool :=
  decide ((v.crop fl).startX ≤ x ∧ x ≤ (v.crop fl).startX + (v.crop fl).drawWidth ∧
    (v.crop fl).startY ≤ y ∧ y ≤ (v.crop fl).startY + (v.crop fl).drawHeight ∧
    0 ≤ x ∧ x ≤ v.videoWidth ∧ 0 ≤ y ∧ y ≤ v.videoHeight)

/-- Horizontal position in the captured image of the video point `(x, y)`; `none`
when no image is returned or the image does not show the point. -/
def destinationX (fl : ℚ → ℚ) (video : Option Video) (canvas : Option Canvas)
    (filter : CssFilter) (x y : ℚ) : Option ℚ :=
  ((capturePhoto fl video canvas filter).1.bind (fun img => img.destination x y)).map Prod.fst

/-- A canvas element as created by the browser: 300 by 150, nothing drawn. -/
def Canvas.blank : Canvas :=
  { width := 300, height := 150, context := Context2D.initial, ops := [] }

/-- The blits of an image that read from the canvas itself. -/
def Image.selfDraws (img : Image) : List DrawOp :=
  img.ops.filter (fun op => decide (op.source = DrawSource.canvas))

/-! ## Camera acquisition -/

/-- The preview `<video>` element as `startCamera` sees it; a stream is named by
a number. -/
structure VideoElement where
  srcObject : Option ℕ
  playCalls : ℕ
  styleTransform : String
  styleObjectFit : String
  deriving DecidableEq, Repr

/-- State touched by `startCamera`: `videoRef.current`, the number of
`getUserMedia` calls made so far and the number of errors logged. -/
structure Camera where
  videoRef : Option VideoElement
  acquisitions : ℕ
  errorsLogged : ℕ
  deriving DecidableEq, Repr

/-- The guard `videoRef.current && videoRef.current.srcObject`. -/
def Camera.attached (s : Camera) : Bool :=
  match s.videoRef with
  | some v => v.srcObject.isSome
  | none => false

/-- The function `startCamera` up to its `await` (lines 31 to 44): the state, and
whether a `getUserMedia` request is now pending. -/
def startCameraBegin (s : Camera) : Camera × Bool :=
  if s.attached then (s, false)
  else ({ s with acquisitions := s.acquisitions + 1 }, true)

/-- The function `startCamera` from its `await` on (lines 44 to 55), given how the
`getUserMedia` request settled. -/
def startCameraSettle (result : Except String ℕ) (s : Camera) : Camera :=
  match result with
  | Except.ok stream =>
    match s.videoRef with
    | some v =>
      let v' : VideoElement :=
        { srcObject := some stream, playCalls := v.playCalls + 1,
          styleTransform := "scaleX(-1)", styleObjectFit := "cover" }
      { s with videoRef := some v' }
    | none => s
  | Except.error _ => { s with errorsLogged := s.errorsLogged + 1 }

/-- The function `startCamera` (lines 30 to 56) run to completion, `result` being
how the `getUserMedia` request settles if one is made. -/
def startCamera (result : Except String ℕ) (s : Camera) : Camera :=
  match startCameraBegin s with
  | (s', true) => startCameraSettle result s'
  | (s', false) => s'

/-- The listener `handleVisibilityChange` (lines 16 to 20), `hidden` being
`document.hidden`. -/
def handleVisibilityChange (hidden : Bool) (result : Except String ℕ) (s : Camera) : Camera :=
  if !hidden then startCamera result s else s

/-! ## The course of a session -/

/-- The calls of one photo cycle begun at time `t` with `k` photos taken so far,
`thumbs` the thumbnail list at that point, `filter` the session's filter and `o`
the outcome of the capture. -/
def photoLog {α : Type} (filter : CssFilter) (t k : ℕ) (thumbs : List α) (o : Option α) :
    List (ℕ × Event α) :=
  [(t, Event.setCountdown (some 3)), (t + 1000, Event.setCountdown (some 2)),
   (t + 2000, Event.setCountdown (some 1)), (t + 3000, Event.setCountdown (some 0)),
   (t + 3000, Event.clearInterval), (t + 3000, Event.capturePhoto filter o)] ++
  o.toList.map (fun img => (t + 3000, Event.setImages (thumbs ++ [img]))) ++
  [(t + 3000, Event.photosTaken (k + 1))]

/-- The state one photo cycle later, at the moment `captureSequence` is entered
again. -/
def afterPhoto {α : Type} (filter : CssFilter) (o : Option α) (k : ℕ) (s : Booth α) :
    Booth α :=
  { capturedImages := s.capturedImages ++ o.toList, filter := s.filter, countdown := some 0,
    capturing := s.capturing, now := s.now + 4000, timers := [],
    log := s.log ++ photoLog filter s.now k s.capturedImages o }

/-- The state after finalization and navigation, finalization being entered in
state `s` with accumulator `acc`. -/
def finalized {α : Type} (acc : List α) (s : Booth α) : Booth α :=
  { capturedImages := acc, filter := s.filter, countdown := none, capturing := false,
    now := s.now + 200, timers := [],
    log := s.log ++
      [(s.now, Event.setCountdown none), (s.now, Event.setCapturing false),
       (s.now, Event.setCapturedImages acc), (s.now, Event.setImages acc),
       (s.now + 200, Event.navigate "/preview")] }

/-- Outcome of the `k`-th capture (counting from 0) of a session started at time
`t` under filter `filter`: the countdown takes 3000 ms and each further photo
comes 4000 ms later. -/
def outcome {α : Type} (camera : ℕ → CssFilter → Option α) (filter : CssFilter) (t k : ℕ) :
    Option α :=
  camera (t + 3000 + 4000 * k) filter

/-- The images of the captures that returned one, in capture order. -/
def successes {α : Type} (camera : ℕ → CssFilter → Option α) (filter : CssFilter) (t : ℕ) :
    List α :=
  [outcome camera filter t 0, outcome camera filter t 1, outcome camera filter t 2,
    outcome camera filter t 3].reduceOption

/-- The calls a session adds to the record: what `startCountdown` followed by
`fuel` turns of the event loop appends to the log of `s`. -/
def sessionLog {α : Type} (camera : ℕ → CssFilter → Option α) (fuel : ℕ) (s : Booth α) :
    List (ℕ × Event α) :=
  (run camera fuel (startCountdown s)).log.drop s.log.length

/-- The countdown display updates among the calls, in order. -/
def displayed {α : Type} (log : List (ℕ × Event α)) : List (ℕ × Option ℤ) :=
  log.filterMap (fun e => match e.2 with
    | Event.setCountdown v => some (e.1, v)
    | _ => none)

/-- The countdown, capture and counter calls of one photo cycle begun at time `t`
with `k` photos taken so far, session filter `filter` and capture outcome `o`. -/
def cycleTrace {α : Type} (filter : CssFilter) (t k : ℕ) (o : Option α) :
    List (ℕ × Event α) :=
  [(t, Event.setCountdown (some 3)), (t + 1000, Event.setCountdown (some 2)),
   (t + 2000, Event.setCountdown (some 1)), (t + 3000, Event.setCountdown (some 0)),
   (t + 3000, Event.clearInterval), (t + 3000, Event.capturePhoto filter o),
   (t + 3000, Event.photosTaken (k + 1))]

/-- A camera whose first capture of a session started at time 0 fails and whose
later captures return the time they were taken at. -/
def firstShotFails (t : ℕ) (_filter : CssFilter) : Option ℕ := if t = 3000 then none else some t

/-- A camera whose every capture returns the time it was taken at. -/
def everyShotWorks (t : ℕ) (_filter : CssFilter) : Option ℕ := some t

/-- A component in the middle of a session: capturing, the display at 2, one
interval timer pending. -/
def Booth.midSession : Booth ℕ :=
  { capturedImages := [3000], filter := CssFilter.sepia100, countdown := some 2,
    capturing := true, now := 5000,
    timers := [{ due := 6000, task := Task.tick CssFilter.sepia100 1 [3000] 2 }],
    log := [] }

/-- The camera of a mounted component in front of a 1920x1080 video: a capture
runs `capturePhoto` in double arithmetic on that frame and a fresh canvas, with
the `filter` its closure reads. -/
def studio (_t : ℕ) (filter : CssFilter) : Option Image :=
  (capturePhoto roundDouble (some (Video.mk 1920 1080)) (some Canvas.blank) filter).1

/-- The component at rest with the grayscale filter selected. -/
def Booth.grayscaleIdle : Booth Image :=
  { capturedImages := [], filter := CssFilter.grayscale100, countdown := none,
    capturing := false, now := 0, timers := [], log := [] }

/-- A camera state with a stream attached to the preview element. -/
def Camera.live : Camera :=
  { videoRef := some { srcObject := some 7, playCalls := 1,
                       styleTransform := "scaleX(-1)", styleObjectFit := "cover" },
    acquisitions := 1, errorsLogged := 0 }

/-- A camera state with the preview element mounted and no stream yet. -/
def Camera.fresh : Camera :=
  { videoRef := some { srcObject := none, playCalls := 0,
                       styleTransform := "", styleObjectFit := "" },
    acquisitions := 0, errorsLogged := 0 }

/-! # Theorems -/

/-! ## Rounding -/

theorem roundHalfEven_of_lt (m : ℚ) (f : ℤ) (h1 : (f : ℚ) ≤ m) (h2 : m - f < 1 / 2) :
    roundHalfEven m = f := by
  have hf : ⌊m⌋ = f := by
    rw [Int.floor_eq_iff]
    constructor
    · exact h1
    · linarith
  simp only [roundHalfEven, hf, h2, if_true]

theorem floor_le_roundHalfEven (m : ℚ) : ⌊m⌋ ≤ roundHalfEven m := by
  unfold roundHalfEven
  split_ifs <;> omega

theorem log_two_eq (q : ℚ) (e : ℤ) (hq : 0 < q) (hlo : (2 : ℚ) ^ e ≤ q)
    (hhi : q < (2 : ℚ) ^ (e + 1)) : Int.log 2 q = e := by
  apply le_antisymm
  · have := (Int.lt_zpow_iff_log_lt (b := 2) (by norm_num) hq (x := e + 1)).mp
      (by exact_mod_cast hhi)
    omega
  · exact (Int.zpow_le_iff_le_log (b := 2) (by norm_num) hq).mp (by exact_mod_cast hlo)

/-- Evaluation of `roundDouble` at a positive number with binary exponent `e`. -/
theorem roundDouble_of_pos (q : ℚ) (e n : ℤ) (hq : 0 < q) (hlo : (2 : ℚ) ^ e ≤ q)
    (hhi : q < (2 : ℚ) ^ (e + 1)) (hn : roundHalfEven (q / 2 ^ (e - 52)) = n) :
    roundDouble q = n * 2 ^ (e - 52) := by
  have hne : q ≠ 0 := ne_of_gt hq
  have hnl : ¬ q < 0 := not_lt.mpr (le_of_lt hq)
  simp only [roundDouble, hne, if_false, abs_of_pos hq, log_two_eq q e hq hlo hhi, hn, hnl,
    one_mul]

theorem roundDouble_pos (q : ℚ) (hq : 0 < q) : 0 < roundDouble q := by
  have hne : q ≠ 0 := ne_of_gt hq
  have hnl : ¬ q < 0 := not_lt.mpr (le_of_lt hq)
  have hulp : (0 : ℚ) < 2 ^ (Int.log 2 q - 52) := zpow_pos (by norm_num) _
  have hlog : (2 : ℚ) ^ (Int.log 2 q) ≤ q := by
    exact_mod_cast Int.zpow_log_le_self (b := 2) (by norm_num) hq
  have hm : (1 : ℚ) ≤ q / 2 ^ (Int.log 2 q - 52) := by
    rw [le_div_iff₀ hulp, one_mul]
    calc (2 : ℚ) ^ (Int.log 2 q - 52) ≤ 2 ^ (Int.log 2 q) :=
          zpow_le_zpow_right₀ (by norm_num) (by omega)
      _ ≤ q := hlog
  have hfl : (1 : ℤ) ≤ ⌊q / 2 ^ (Int.log 2 q - 52)⌋ := Int.le_floor.mpr (by exact_mod_cast hm)
  have hr : (1 : ℤ) ≤ roundHalfEven (q / 2 ^ (Int.log 2 q - 52)) :=
    le_trans hfl (floor_le_roundHalfEven _)
  have hr' : (0 : ℚ) < (roundHalfEven (q / 2 ^ (Int.log 2 q - 52)) : ℚ) := by
    exact_mod_cast hr
  simp only [roundDouble, hne, if_false, abs_of_pos hq, hnl, one_mul]
  exact mul_pos hr' hulp

theorem roundDouble_zero : roundDouble 0 = 0 := by
  simp [roundDouble]

/-- The double `1280 / 720`: just below 16/9. -/
theorem targetRatio_double : targetRatio roundDouble = 8006399337547548 / 2 ^ 52 := by
  have h := roundDouble_of_pos (16 / 9) 0 8006399337547548 (by norm_num) (by norm_num)
    (by norm_num) (roundHalfEven_of_lt _ _ (by norm_num) (by norm_num))
  have e : ((targetWidth : ℚ) / (targetHeight : ℚ)) = 16 / 9 := by
    norm_num [targetWidth, targetHeight]
  rw [targetRatio, e, h]
  norm_num

theorem roundDouble_854_480 : roundDouble (854 / 480) = 8012654337030007 / 2 ^ 52 := by
  have h := roundDouble_of_pos (854 / 480) 0 8012654337030007 (by norm_num) (by norm_num)
    (by norm_num) (roundHalfEven_of_lt _ _ (by norm_num) (by norm_num))
  rw [h]
  norm_num

theorem roundDouble_480_ratio :
    roundDouble (480 * (8006399337547548 / 2 ^ 52)) = 3752999689475413 / 2 ^ 42 := by
  have h := roundDouble_of_pos (480 * (8006399337547548 / 2 ^ 52)) 9 7505999378950826
    (by norm_num) (by norm_num) (by norm_num)
    (roundHalfEven_of_lt _ _ (by norm_num) (by norm_num))
  rw [h]
  norm_num

theorem roundDouble_1920_ratio :
    roundDouble (1920 / (8006399337547548 / 2 ^ 52)) = 1080 := by
  have h := roundDouble_of_pos (1920 / (8006399337547548 / 2 ^ 52)) 10 4749890231992320
    (by norm_num) (by norm_num) (by norm_num)
    (roundHalfEven_of_lt _ _ (by norm_num) (by norm_num))
  rw [h]
  norm_num

/-! ## Crop rectangle -/

theorem targetRatio_exact : targetRatio exact = 16 / 9 := by
  norm_num [targetRatio, targetWidth, targetHeight, exact]

theorem cropRect_of_gt (fl : ℚ → ℚ) (w h : ℚ)
    (hg : (JSNumber.div fl w h).gt (targetRatio fl) = true) :
    cropRect fl w h =
      { startX := fl (fl (w - fl (h * targetRatio fl)) / 2), startY := 0,
        drawWidth := fl (h * targetRatio fl), drawHeight := h } := by
  simp [cropRect, hg]

theorem cropRect_of_not_gt (fl : ℚ → ℚ) (w h : ℚ)
    (hg : (JSNumber.div fl w h).gt (targetRatio fl) = false) :
    cropRect fl w h =
      { startX := 0, startY := fl (fl (h - fl (w / targetRatio fl)) / 2),
        drawWidth := w, drawHeight := fl (w / targetRatio fl) } := by
  simp [cropRect, hg]

theorem cropRect_wide (w h : ℚ) (hh : 0 < h) (hr : 16 / 9 < w / h) :
    cropRect exact w h =
      { startX := (w - h * (16 / 9)) / 2, startY := 0,
        drawWidth := h * (16 / 9), drawHeight := h } := by
  have hne : h ≠ 0 := ne_of_gt hh
  simp [cropRect, JSNumber.div, JSNumber.gt, hne, targetRatio_exact, hr, exact]

theorem cropRect_narrow (w h : ℚ) (hh : 0 < h) (hr : ¬ 16 / 9 < w / h) :
    cropRect exact w h =
      { startX := 0, startY := (h - w / (16 / 9)) / 2,
        drawWidth := w, drawHeight := w / (16 / 9) } := by
  have hne : h ≠ 0 := ne_of_gt hh
  simp [cropRect, JSNumber.div, JSNumber.gt, hne, targetRatio_exact, hr, exact]

/-- C1. Crop selection over exact rationals, for a frame of positive width `w` and
height `h`: wider than 16/9 keeps the full height and takes a horizontally
centred slice of width `h * 16/9`; narrower keeps the full width and takes a
vertically centred slice of height `w * 9/16`; exactly 16/9 takes the whole
frame. -/
theorem crop_selection (w h : ℚ) (hw : 0 < w) (hh : 0 < h) :
    (w / h > 16 / 9 →
      (cropRect exact w h).startY = 0 ∧ (cropRect exact w h).drawHeight = h ∧
      (cropRect exact w h).drawWidth = h * 16 / 9 ∧
      (cropRect exact w h).startX = (w - (cropRect exact w h).drawWidth) / 2) ∧
    (w / h < 16 / 9 →
      (cropRect exact w h).startX = 0 ∧ (cropRect exact w h).drawWidth = w ∧
      (cropRect exact w h).drawHeight = w * 9 / 16 ∧
      (cropRect exact w h).startY = (h - (cropRect exact w h).drawHeight) / 2) ∧
    (w / h = 16 / 9 →
      (cropRect exact w h).startX = 0 ∧ (cropRect exact w h).startY = 0 ∧
      (cropRect exact w h).drawWidth = w ∧ (cropRect exact w h).drawHeight = h) := by
  have hne : h ≠ 0 := ne_of_gt hh
  have _hw := hw
  refine ⟨fun hr => ?_, fun hr => ?_, fun hr => ?_⟩
  · rw [cropRect_wide w h hh hr]
    refine ⟨rfl, rfl, ?_, rfl⟩
    show h * (16 / 9) = h * 16 / 9
    ring
  · rw [cropRect_narrow w h hh (not_lt.mpr (le_of_lt hr))]
    refine ⟨rfl, rfl, ?_, rfl⟩
    show w / (16 / 9) = w * 9 / 16
    ring
  · rw [cropRect_narrow w h hh (not_lt.mpr (le_of_eq hr))]
    have hwh : w = 16 / 9 * h := by
      field_simp at hr
      linarith
    refine ⟨rfl, ?_, rfl, ?_⟩
    · show (h - w / (16 / 9)) / 2 = 0
      rw [hwh]; ring
    · show w / (16 / 9) = h
      rw [hwh]; ring

/-- Three frames, one per case: 2560x1080 (wider), 640x480 (narrower) and
1920x1080 (exactly 16/9). -/
theorem crop_selection_witness :
    ((cropRect exact 2560 1080).startY = 0 ∧ (cropRect exact 2560 1080).drawHeight = 1080 ∧
      (cropRect exact 2560 1080).drawWidth = 1080 * 16 / 9 ∧
      (cropRect exact 2560 1080).startX = (2560 - (cropRect exact 2560 1080).drawWidth) / 2) ∧
    ((cropRect exact 640 480).startX = 0 ∧ (cropRect exact 640 480).drawWidth = 640 ∧
      (cropRect exact 640 480).drawHeight = 640 * 9 / 16 ∧
      (cropRect exact 640 480).startY = (480 - (cropRect exact 640 480).drawHeight) / 2) ∧
    ((cropRect exact 1920 1080).startX = 0 ∧ (cropRect exact 1920 1080).startY = 0 ∧
      (cropRect exact 1920 1080).drawWidth = 1920 ∧
      (cropRect exact 1920 1080).drawHeight = 1080) :=
  ⟨(crop_selection 2560 1080 (by norm_num) (by norm_num)).1 (by norm_num),
   (crop_selection 640 480 (by norm_num) (by norm_num)).2.1 (by norm_num),
   (crop_selection 1920 1080 (by norm_num) (by norm_num)).2.2 (by norm_num)⟩

/-- Under any rounding that keeps positive numbers positive, the crop of a frame
of positive size has positive width and height. -/
theorem cropRect_pos (fl : ℚ → ℚ) (hfl : ∀ q, 0 < q → 0 < fl q) (w h : ℚ)
    (hw : 0 < w) (hh : 0 < h) :
    0 < (cropRect fl w h).drawWidth ∧ 0 < (cropRect fl w h).drawHeight := by
  have hT : 0 < targetRatio fl := by
    apply hfl
    norm_num [targetWidth, targetHeight]
  cases hg : (JSNumber.div fl w h).gt (targetRatio fl)
  · rw [cropRect_of_not_gt fl w h hg]
    exact ⟨hw, hfl _ (div_pos hw hT)⟩
  · rw [cropRect_of_gt fl w h hg]
    exact ⟨hfl _ (mul_pos hh hT), hh⟩

theorem exact_pos (q : ℚ) (hq : 0 < q) : 0 < exact q := hq

/-- Over exact rationals, for a frame of positive size the crop lies inside the
frame, has aspect ratio 16/9, and bounds every 16/9 rectangle that fits in the
frame. -/
theorem cropRect_inside_maximal (w h : ℚ) (hw : 0 < w) (hh : 0 < h) :
    0 ≤ (cropRect exact w h).startX ∧ 0 ≤ (cropRect exact w h).startY ∧
    (cropRect exact w h).startX + (cropRect exact w h).drawWidth ≤ w ∧
    (cropRect exact w h).startY + (cropRect exact w h).drawHeight ≤ h ∧
    (cropRect exact w h).drawWidth / (cropRect exact w h).drawHeight = 16 / 9 ∧
    ∀ x y rw rh : ℚ, 0 ≤ x → 0 ≤ y → x + rw ≤ w → y + rh ≤ h → rw / rh = 16 / 9 →
      rw ≤ (cropRect exact w h).drawWidth ∧ rh ≤ (cropRect exact w h).drawHeight := by
  have hne : h ≠ 0 := ne_of_gt hh
  have key : ∀ rw rh : ℚ, rw / rh = 16 / 9 → rw = 16 / 9 * rh := by
    intro rw rh hq
    have hrh : rh ≠ 0 := by
      rintro rfl
      norm_num at hq
    field_simp at hq
    field_simp
    linarith
  by_cases hr : 16 / 9 < w / h
  · rw [cropRect_wide w h hh hr]
    have hlt : 16 / 9 * h < w := by
      have := (lt_div_iff₀ hh).mp hr
      linarith
    refine ⟨?_, le_refl _, ?_, ?_, ?_, ?_⟩
    · show 0 ≤ (w - h * (16 / 9)) / 2
      linarith
    · show (w - h * (16 / 9)) / 2 + h * (16 / 9) ≤ w
      linarith
    · show (0 : ℚ) + h ≤ h
      linarith
    · show h * (16 / 9) / h = 16 / 9
      field_simp
      ring
    · intro x y rw rh hx hy hxw hyh hq
      have := key rw rh hq
      show rw ≤ h * (16 / 9) ∧ rh ≤ h
      constructor <;> linarith
  · rw [cropRect_narrow w h hh hr]
    have hle : w ≤ 16 / 9 * h := by
      have := (div_le_iff₀ hh).mp (not_lt.mp hr)
      linarith
    refine ⟨le_refl _, ?_, ?_, ?_, ?_, ?_⟩
    · show 0 ≤ (h - w / (16 / 9)) / 2
      linarith
    · show (0 : ℚ) + w ≤ w
      linarith
    · show (h - w / (16 / 9)) / 2 + w / (16 / 9) ≤ h
      linarith
    · show w / (w / (16 / 9)) = 16 / 9
      have hwne : w ≠ 0 := ne_of_gt hw
      field_simp
      ring
    · intro x y rw rh hx hy hxw hyh hq
      have := key rw rh hq
      show rw ≤ w ∧ rh ≤ w / (16 / 9)
      constructor <;> linarith

/-- In double arithmetic the crop of an 854x480 frame is 480 high and just under
2560/3 wide. -/
theorem cropRect_double_854_480 :
    (cropRect roundDouble 854 480).drawWidth = 3752999689475413 / 2 ^ 42 ∧
    (cropRect roundDouble 854 480).drawHeight = 480 := by
  have hgt : (JSNumber.div roundDouble 854 480).gt (targetRatio roundDouble) = true := by
    simp only [JSNumber.div, JSNumber.gt, targetRatio_double, roundDouble_854_480]
    norm_num
  rw [cropRect_of_gt roundDouble 854 480 hgt]
  simp only [targetRatio_double, roundDouble_480_ratio, and_self]

/-- In double arithmetic the crop of a 1920x1080 frame is the whole frame. -/
theorem cropRect_double_1920_1080 :
    cropRect roundDouble 1920 1080 =
      { startX := 0, startY := 0, drawWidth := 1920, drawHeight := 1080 } := by
  have e : (1920 : ℚ) / 1080 = 16 / 9 := by norm_num
  have e' : ((targetWidth : ℚ) / (targetHeight : ℚ)) = 16 / 9 := by
    norm_num [targetWidth, targetHeight]
  have hgt : (JSNumber.div roundDouble 1920 1080).gt (targetRatio roundDouble) = false := by
    simp only [JSNumber.div, JSNumber.gt, targetRatio, e, e']
    norm_num
  rw [cropRect_of_not_gt roundDouble 1920 1080 hgt]
  simp only [targetRatio_double, roundDouble_1920_ratio, sub_self, roundDouble_zero, zero_div]

/-! ## The capture pipeline -/

theorem mirroredCropDraw_eq (fl : ℚ → ℚ) (v : Video) (c : Canvas) :
    mirroredCropDraw fl v c =
      { width := 1280, height := 720, context := Context2D.initial,
        ops := if (v.crop fl).drawWidth = 0 ∨ (v.crop fl).drawHeight = 0 then []
               else [cropOp v (v.crop fl)] } := by
  by_cases h0 : (v.crop fl).drawWidth = 0 ∨ (v.crop fl).drawHeight = 0
  · have h0' := h0
    simp only [Video.crop] at h0'
    simp [mirroredCropDraw, Canvas.setWidth, Canvas.setHeight, Canvas.save, Canvas.translate,
      Canvas.scale, Canvas.drawImage, Canvas.restore, Context2D.initial, h0, h0',
      targetWidth, targetHeight]
  · have h0' := h0
    simp only [Video.crop] at h0'
    simp [mirroredCropDraw, Canvas.setWidth, Canvas.setHeight, Canvas.save, Canvas.translate,
      Canvas.scale, Canvas.drawImage, Canvas.restore, Context2D.initial, h0, h0',
      targetWidth, targetHeight, cropOp, mirror, Matrix2D.mul, Matrix2D.identity, Video.crop]

theorem filterPass_eq (filter : CssFilter) (c : Canvas) (hw : c.width = 1280)
    (hh : c.height = 720) (hc : c.context = Context2D.initial) :
    filterPass filter c =
      { width := 1280, height := 720, context := Context2D.initial,
        ops := if filter = CssFilter.none then c.ops else c.ops ++ [selfOp filter] } := by
  obtain ⟨w, h, ctx, ops⟩ := c
  simp only at hw hh hc
  subst hw hh hc
  by_cases hf : filter = CssFilter.none
  · simp [filterPass, hf]
  · simp [filterPass, hf, Canvas.setFilter, Canvas.drawSelf, Canvas.drawImage,
      Context2D.initial, selfOp]

theorem capturePhoto_eq (fl : ℚ → ℚ) (v : Video) (c : Canvas) (filter : CssFilter) :
    capturePhoto fl (some v) (some c) filter =
      (some { width := 1280, height := 720,
              ops := if filter = CssFilter.none then (mirroredCropDraw fl v c).ops
                     else (mirroredCropDraw fl v c).ops ++ [selfOp filter] },
       some { width := 1280, height := 720, context := Context2D.initial,
              ops := if filter = CssFilter.none then (mirroredCropDraw fl v c).ops
                     else (mirroredCropDraw fl v c).ops ++ [selfOp filter] }) := by
  have h := filterPass_eq filter (mirroredCropDraw fl v c)
    (by rw [mirroredCropDraw_eq]) (by rw [mirroredCropDraw_eq]) (by rw [mirroredCropDraw_eq])
  simp only [capturePhoto, h, Canvas.toDataURL]

theorem mirroredCropDraw_ops_pos (fl : ℚ → ℚ) (hfl : ∀ q, 0 < q → 0 < fl q) (v : Video)
    (c : Canvas) (hw : 0 < v.videoWidth) (hh : 0 < v.videoHeight) :
    (mirroredCropDraw fl v c).ops = [cropOp v (v.crop fl)] := by
  have hp := cropRect_pos fl hfl v.videoWidth v.videoHeight
    (by exact_mod_cast hw) (by exact_mod_cast hh)
  rw [mirroredCropDraw_eq]
  simp [Video.crop, ne_of_gt hp.1, ne_of_gt hp.2]

theorem mirroredCropDraw_no_self (fl : ℚ → ℚ) (v : Video) (c : Canvas) :
    ∀ op ∈ (mirroredCropDraw fl v c).ops, op.source = DrawSource.video := by
  rw [mirroredCropDraw_eq]
  intro op hop
  simp only at hop
  split at hop
  · simp at hop
  · simp only [List.mem_singleton] at hop
    subst hop
    rfl

/-- C2, as stated, fails: in double arithmetic the rectangle `capturePhoto` blits
from an 854x480 frame is 480 high and 3752999689475413 / 2^42 wide, which is not
16/9 of the height and is narrower than the 16/9 rectangle of width 2560/3 that
fits in the frame. -/
theorem crop_double_not_exact :
    (∃ img, (capturePhoto roundDouble (some (Video.mk 854 480)) (some Canvas.blank)
        CssFilter.none).1 = some img ∧
      img.ops.head? = some (cropOp (Video.mk 854 480) ((Video.mk 854 480).crop roundDouble))) ∧
    ((Video.mk 854 480).crop roundDouble).drawWidth /
      ((Video.mk 854 480).crop roundDouble).drawHeight ≠ 16 / 9 ∧
    ∃ rw rh : ℚ, 0 + rw ≤ ((Video.mk 854 480).videoWidth : ℚ) ∧
      0 + rh ≤ ((Video.mk 854 480).videoHeight : ℚ) ∧ rw / rh = 16 / 9 ∧
      ((Video.mk 854 480).crop roundDouble).drawWidth < rw := by
  have hc := cropRect_double_854_480
  have hw : ((Video.mk 854 480).crop roundDouble).drawWidth = 3752999689475413 / 2 ^ 42 := by
    simp only [Video.crop, Nat.cast_ofNat]
    exact hc.1
  have hh : ((Video.mk 854 480).crop roundDouble).drawHeight = 480 := by
    simp only [Video.crop, Nat.cast_ofNat]
    exact hc.2
  refine ⟨?_, ?_, 2560 / 3, 480, ?_, ?_, ?_, ?_⟩
  · rw [capturePhoto_eq, mirroredCropDraw_ops_pos roundDouble roundDouble_pos _ _
      (by decide) (by decide)]
    exact ⟨_, rfl, rfl⟩
  · rw [hw, hh]
    norm_num
  · norm_num
  · norm_num
  · norm_num
  · rw [hw]
    norm_num

/-- C2, amended. Over exact rational arithmetic, for a frame of positive size, the
rectangle `capturePhoto` blits from lies inside the frame, has aspect ratio
exactly 16/9, is stretched over the whole 1280x720 destination, and no 16/9
rectangle inside the frame is wider or taller. -/
theorem crop_inside_exact_maximal (v : Video) (c : Canvas) (filter : CssFilter)
    (hw : 0 < v.videoWidth) (hh : 0 < v.videoHeight) :
    (∃ img, (capturePhoto exact (some v) (some c) filter).1 = some img ∧
      img.ops.head? = some (cropOp v (v.crop exact))) ∧
    (cropOp v (v.crop exact)).sx = (v.crop exact).startX ∧
    (cropOp v (v.crop exact)).sy = (v.crop exact).startY ∧
    (cropOp v (v.crop exact)).sw = (v.crop exact).drawWidth ∧
    (cropOp v (v.crop exact)).sh = (v.crop exact).drawHeight ∧
    (cropOp v (v.crop exact)).dx = 0 ∧ (cropOp v (v.crop exact)).dy = 0 ∧
    (cropOp v (v.crop exact)).dw = targetWidth ∧ (cropOp v (v.crop exact)).dh = targetHeight ∧
    0 ≤ (v.crop exact).startX ∧ 0 ≤ (v.crop exact).startY ∧
    (v.crop exact).startX + (v.crop exact).drawWidth ≤ v.videoWidth ∧
    (v.crop exact).startY + (v.crop exact).drawHeight ≤ v.videoHeight ∧
    (v.crop exact).drawWidth / (v.crop exact).drawHeight = 16 / 9 ∧
    ∀ x y rw rh : ℚ, 0 ≤ x → 0 ≤ y → x + rw ≤ v.videoWidth → y + rh ≤ v.videoHeight →
      rw / rh = 16 / 9 → rw ≤ (v.crop exact).drawWidth ∧ rh ≤ (v.crop exact).drawHeight := by
  have hq := cropRect_inside_maximal v.videoWidth v.videoHeight
    (by exact_mod_cast hw) (by exact_mod_cast hh)
  refine ⟨?_, rfl, rfl, rfl, rfl, rfl, rfl, ?_, ?_, hq⟩
  · rw [capturePhoto_eq, mirroredCropDraw_ops_pos exact exact_pos v c hw hh]
    refine ⟨_, rfl, ?_⟩
    by_cases hf : filter = CssFilter.none <;> simp [hf]
  · norm_num [cropOp, targetWidth]
  · norm_num [cropOp, targetHeight]

/-- A 1280x960 frame under grayscale: the crop stays inside the frame and has
ratio 16/9. -/
theorem crop_inside_exact_maximal_witness :
    (0 < (Video.mk 1280 960).videoWidth ∧ 0 < (Video.mk 1280 960).videoHeight) ∧
    ((Video.mk 1280 960).crop exact).startY + ((Video.mk 1280 960).crop exact).drawHeight
      ≤ (Video.mk 1280 960).videoHeight ∧
    ((Video.mk 1280 960).crop exact).drawWidth / ((Video.mk 1280 960).crop exact).drawHeight
      = 16 / 9 :=
  ⟨⟨by decide, by decide⟩,
   (crop_inside_exact_maximal (Video.mk 1280 960) Canvas.blank CssFilter.grayscale100
      (by decide) (by decide)).2.2.2.2.2.2.2.2.2.2.2.2.1,
   (crop_inside_exact_maximal (Video.mk 1280 960) Canvas.blank CssFilter.grayscale100
      (by decide) (by decide)).2.2.2.2.2.2.2.2.2.2.2.2.2.1⟩

/-! ## Mirroring -/

theorem cropOp_covers (fl : ℚ → ℚ) (v : Video) (x y : ℚ) :
    (cropOp v (v.crop fl)).covers x y = v.inCrop fl x y := rfl

/-- A point the crop blit reads is painted on the raster, mirrored. -/
theorem cropOp_place (v : Video) (r : Crop) (x y : ℚ) (hw : 0 < r.drawWidth)
    (hh : 0 < r.drawHeight) :
    ((cropOp v r).place x y).filter (onRaster 1280 720) =
      if (cropOp v r).covers x y then
        some (1280 - (x - r.startX) * 1280 / r.drawWidth, (y - r.startY) * 720 / r.drawHeight)
      else none := by
  by_cases hc : (cropOp v r).covers x y = true
  · have hc' := hc
    simp only [DrawOp.covers, cropOp, decide_eq_true_eq] at hc'
    obtain ⟨h1, h2, h3, h4, -⟩ := hc'
    have hu0 : 0 ≤ (x - r.startX) * 1280 / r.drawWidth :=
      div_nonneg (mul_nonneg (by linarith) (by norm_num)) (le_of_lt hw)
    have hu1 : (x - r.startX) * 1280 / r.drawWidth ≤ 1280 := by
      rw [div_le_iff₀ hw]
      nlinarith
    have hv0 : 0 ≤ (y - r.startY) * 720 / r.drawHeight :=
      div_nonneg (mul_nonneg (by linarith) (by norm_num)) (le_of_lt hh)
    have hv1 : (y - r.startY) * 720 / r.drawHeight ≤ 720 := by
      rw [div_le_iff₀ hh]
      nlinarith
    have hp : (cropOp v r).place x y =
        some (1280 - (x - r.startX) * 1280 / r.drawWidth,
          (y - r.startY) * 720 / r.drawHeight) := by
      simp only [DrawOp.place, hc, if_true]
      simp only [cropOp, mirror, Matrix2D.apply]
      congr 1
      ext <;> (simp; try ring)
    have hr : onRaster 1280 720 (1280 - (x - r.startX) * 1280 / r.drawWidth,
        (y - r.startY) * 720 / r.drawHeight) = true := by
      simp only [onRaster, decide_eq_true_eq, Nat.cast_ofNat]
      exact ⟨by linarith, by linarith, hv0, hv1⟩
    rw [hp, if_pos hc]
    simp [Option.filter, hr]
  · rw [if_neg hc]
    simp [DrawOp.place, hc, Option.filter]

/-- The filter pass paints a point of the raster where it already is. -/
theorem selfOp_place (filter : CssFilter) (p : ℚ × ℚ) (hp : onRaster 1280 720 p = true) :
    ((selfOp filter).place p.1 p.2).filter (onRaster 1280 720) = some p := by
  have hp' := hp
  simp only [onRaster, decide_eq_true_eq, Nat.cast_ofNat] at hp'
  obtain ⟨h1, h2, h3, h4⟩ := hp'
  have hc : (selfOp filter).covers p.1 p.2 = true := by
    simp only [DrawOp.covers, selfOp, decide_eq_true_eq]
    exact ⟨h1, by linarith, h3, by linarith, h1, h2, h3, h4⟩
  have hq : (selfOp filter).place p.1 p.2 = some p := by
    simp only [DrawOp.place, hc, if_true]
    simp only [selfOp, Matrix2D.identity, Matrix2D.apply]
    congr 1
    ext <;> simp
  rw [hq]
  simp [Option.filter, hp]

theorem placeThrough_capture (v : Video) (r : Crop) (filter : CssFilter) (x y : ℚ)
    (hw : 0 < r.drawWidth) (hh : 0 < r.drawHeight) :
    placeThrough 1280 720 x y
        (if filter = CssFilter.none then [cropOp v r] else [cropOp v r] ++ [selfOp filter]) none =
      if (cropOp v r).covers x y then
        some (1280 - (x - r.startX) * 1280 / r.drawWidth, (y - r.startY) * 720 / r.drawHeight)
      else none := by
  have hcrop := cropOp_place v r x y hw hh
  have hsrc : (cropOp v r).source = DrawSource.video := rfl
  have hself : (selfOp filter).source = DrawSource.canvas := rfl
  by_cases hc : (cropOp v r).covers x y = true
  · rw [if_pos hc] at hcrop ⊢
    have hr : onRaster 1280 720 (1280 - (x - r.startX) * 1280 / r.drawWidth,
        (y - r.startY) * 720 / r.drawHeight) = true := by
      have := hcrop
      simp only [Option.filter] at this
      split at this
      · rename_i p hp
        split at this
        · rename_i hq
          simp only [Option.some.injEq] at this
          rw [← this]
          exact hq
        · cases this
      · cases this
    have hs := selfOp_place filter _ hr
    by_cases hf : filter = CssFilter.none
    · simp only [hf, if_true, placeThrough, hsrc, hcrop]
    · simp only [hf, if_false, List.singleton_append, placeThrough, hsrc, hself, hcrop,
        Option.bind, hs]
  · rw [if_neg hc] at hcrop ⊢
    by_cases hf : filter = CssFilter.none
    · simp only [hf, if_true, placeThrough, hsrc, hcrop]
    · simp only [hf, if_false, List.singleton_append, placeThrough, hsrc, hself, hcrop,
        Option.none_bind, Option.filter_none]

/-- Where `capturePhoto` shows a point of a frame of positive size, under any
rounding that keeps positive numbers positive. -/
theorem destinationX_eq (fl : ℚ → ℚ) (hfl : ∀ q, 0 < q → 0 < fl q) (v : Video) (c : Canvas)
    (filter : CssFilter) (x y : ℚ) (hw : 0 < v.videoWidth) (hh : 0 < v.videoHeight) :
    destinationX fl (some v) (some c) filter x y =
      if v.inCrop fl x y then
        some ((targetWidth : ℚ) - (x - (v.crop fl).startX) * targetWidth / (v.crop fl).drawWidth)
      else none := by
  have hops := mirroredCropDraw_ops_pos fl hfl v c hw hh
  have hpos := cropRect_pos fl hfl v.videoWidth v.videoHeight
    (by exact_mod_cast hw) (by exact_mod_cast hh)
  have hp := placeThrough_capture v (v.crop fl) filter x y hpos.1 hpos.2
  rw [cropOp_covers] at hp
  simp only [destinationX, capturePhoto_eq, hops, Option.bind, Image.destination]
  rw [hp]
  by_cases hc : v.inCrop fl x y = true
  · simp [hc, targetWidth]
  · simp [hc]

/-- C3, as stated, fails: in double arithmetic, on a 1920x1080 frame the content at
the centre `(960, 540)`, which lies in the crop, is drawn at horizontal position
640, not at `targetWidth - 960 = 320`. -/
theorem mirror_plain_offset_fails :
    (Video.mk 1920 1080).inCrop roundDouble 960 540 = true ∧
    destinationX roundDouble (some (Video.mk 1920 1080)) (some Canvas.blank) CssFilter.none
      960 540 = some 640 ∧
    destinationX roundDouble (some (Video.mk 1920 1080)) (some Canvas.blank) CssFilter.none
      960 540 ≠ some ((targetWidth : ℚ) - 960) := by
  have hc : (Video.mk 1920 1080).crop roundDouble = ⟨0, 0, 1920, 1080⟩ := by
    simp only [Video.crop, Nat.cast_ofNat]
    exact cropRect_double_1920_1080
  have hin : (Video.mk 1920 1080).inCrop roundDouble 960 540 = true := by
    simp only [Video.inCrop, hc, decide_eq_true_eq, Nat.cast_ofNat]
    norm_num
  have h : destinationX roundDouble (some (Video.mk 1920 1080)) (some Canvas.blank)
      CssFilter.none 960 540 = some 640 := by
    rw [destinationX_eq roundDouble roundDouble_pos _ _ _ _ _ (by decide) (by decide), if_pos hin,
      hc]
    norm_num [targetWidth]
  refine ⟨hin, h, ?_⟩
  rw [h]
  norm_num [targetWidth]

/-- C3, amended. In double arithmetic, for every frame of positive size, every
canvas and every filter: content at a source position `(x, y)` inside the crop
rectangle is drawn at horizontal destination position
`targetWidth - (x - startX) * targetWidth / drawWidth`, content outside the crop is
not drawn, and the crop blit runs under a transform that sends the horizontal
position `u` to `targetWidth - u`. -/
theorem mirror_of_scaled_crop (v : Video) (c : Canvas) (filter : CssFilter) (x y : ℚ)
    (hw : 0 < v.videoWidth) (hh : 0 < v.videoHeight) :
    destinationX roundDouble (some v) (some c) filter x y =
      (if v.inCrop roundDouble x y then
        some ((targetWidth : ℚ) -
          (x - (v.crop roundDouble).startX) * targetWidth / (v.crop roundDouble).drawWidth)
      else none) ∧
    (∃ img, (capturePhoto roundDouble (some v) (some c) filter).1 = some img ∧
      ∀ op ∈ img.ops.head?, ∀ u w : ℚ, op.transform.apply u w = ((targetWidth : ℚ) - u, w)) := by
  refine ⟨destinationX_eq roundDouble roundDouble_pos v c filter x y hw hh, ?_⟩
  rw [capturePhoto_eq, mirroredCropDraw_ops_pos roundDouble roundDouble_pos v c hw hh]
  refine ⟨_, rfl, ?_⟩
  intro op hop u w
  have hop' : op = cropOp v (v.crop roundDouble) := by
    by_cases hf : filter = CssFilter.none <;> simp [hf] at hop <;> exact hop.symm
  subst hop'
  simp only [cropOp, mirror, Matrix2D.apply, targetWidth]
  ext <;> (simp; try ring)

/-- A 1920x1080 frame under sepia: the column `x = 480` of the source lands on
column 960 of the destination. -/
theorem mirror_of_scaled_crop_witness :
    (0 < (Video.mk 1920 1080).videoWidth ∧ 0 < (Video.mk 1920 1080).videoHeight) ∧
    destinationX roundDouble (some (Video.mk 1920 1080)) (some Canvas.blank) CssFilter.sepia100
        480 540 =
      (if (Video.mk 1920 1080).inCrop roundDouble 480 540 then
        some ((targetWidth : ℚ) -
          (480 - ((Video.mk 1920 1080).crop roundDouble).startX) * targetWidth /
            ((Video.mk 1920 1080).crop roundDouble).drawWidth)
      else none) :=
  ⟨⟨by decide, by decide⟩,
   (mirror_of_scaled_crop (Video.mk 1920 1080) Canvas.blank CssFilter.sepia100 480 540
     (by decide) (by decide)).1⟩

/-! ## Raster size -/

/-- C8. Whatever the arithmetic, the video size (zero included) and the filter,
an image returned by `capturePhoto` is 1280 wide and 720 high; `capturePhoto`
returns nothing exactly when the video or the canvas is missing. -/
theorem capture_raster_size (fl : ℚ → ℚ) (video : Option Video) (canvas : Option Canvas)
    (filter : CssFilter) :
    (∀ img, (capturePhoto fl video canvas filter).1 = some img →
      img.width = targetWidth ∧ img.height = targetHeight) ∧
    ((capturePhoto fl video canvas filter).1 = none ↔ video = none ∨ canvas = none) ∧
    (∀ v c, (capturePhoto fl (some v) (some c) filter).1.map
      (fun img => (img.width, img.height)) = some (1280, 720)) := by
  refine ⟨?_, ?_, ?_⟩
  · intro img himg
    cases video with
    | none => simp [capturePhoto] at himg
    | some v =>
      cases canvas with
      | none => simp [capturePhoto] at himg
      | some c =>
        rw [capturePhoto_eq] at himg
        simp only [Option.some.injEq] at himg
        subst himg
        exact ⟨rfl, rfl⟩
  · cases video with
    | none => simp [capturePhoto]
    | some v =>
      cases canvas with
      | none => simp [capturePhoto]
      | some c => simp [capturePhoto_eq]
  · intro v c
    rw [capturePhoto_eq]
    rfl

/-- A 640x480 frame and a frame of size zero both give a 1280x720 image; a
missing video gives nothing. -/
theorem capture_raster_size_witness :
    (capturePhoto roundDouble (some (Video.mk 640 480)) (some Canvas.blank)
      CssFilter.sepia100).1.map (fun img => (img.width, img.height)) = some (1280, 720) ∧
    (capturePhoto roundDouble (some (Video.mk 0 0)) (some Canvas.blank) CssFilter.none).1.map
      (fun img => (img.width, img.height)) = some (1280, 720) ∧
    (capturePhoto roundDouble none (some Canvas.blank) CssFilter.none).1 = none :=
  ⟨(capture_raster_size roundDouble none none CssFilter.sepia100).2.2 (Video.mk 640 480)
     Canvas.blank,
   (capture_raster_size roundDouble none none CssFilter.none).2.2 (Video.mk 0 0) Canvas.blank,
   (capture_raster_size roundDouble none (some Canvas.blank) CssFilter.none).2.1.mpr
     (Or.inl rfl)⟩

/-! ## The countdown sequencer -/

theorem max_self_add (a b : ℕ) : max a (a + b) = a + b := by omega

theorem run_quiescent {α : Type} (camera : ℕ → CssFilter → Option α) (n : ℕ) (s : Booth α)
    (hq : s.timers = []) : run camera n s = s := by
  cases n with
  | zero => rfl
  | succ n => simp [run, step, hq, extractEarliest]

/-- One photo cycle: three ticks and the pause, four turns of the event loop. -/
theorem photo_cycle {α : Type} (camera : ℕ → CssFilter → Option α) (n k : ℕ)
    (filter : CssFilter) (acc : List α) (s : Booth α) (hq : s.timers = []) (hk : k < 4) :
    run camera (n + 4) (captureSequence filter k acc s) =
      run camera n (captureSequence filter (k + 1)
        (acc ++ (camera (s.now + 3000) filter).toList)
        (afterPhoto filter (camera (s.now + 3000) filter) k s)) := by
  obtain ⟨imgs, fl, cd, cap, now, timers, log⟩ := s
  simp only at hq
  subst hq
  have hk' : ¬ k ≥ 4 := by omega
  have h2 : now + 1000 + 1000 = now + 2000 := by omega
  have h3 : now + 1000 + 1000 + 1000 = now + 3000 := by omega
  have h4 : now + 3000 + 1000 = now + 4000 := by omega
  rcases ho : camera (now + 3000) filter with _ | img
  · simp [run, step, captureSequence, hk', Booth.emit, Booth.schedule, extractEarliest,
      fire, tick, max_self_add, h3, ho, h4, h2, afterPhoto, photoLog]
  · simp [run, step, captureSequence, hk', Booth.emit, Booth.schedule, extractEarliest,
      fire, tick, max_self_add, h3, ho, h4, h2, afterPhoto, photoLog]

/-- Finalization and the navigation timer: one turn of the event loop. -/
theorem finalize_run {α : Type} (camera : ℕ → CssFilter → Option α) (n k : ℕ)
    (filter : CssFilter) (acc : List α) (s : Booth α) (hq : s.timers = []) (hk : 4 ≤ k) :
    run camera (n + 1) (captureSequence filter k acc s) = finalized acc s := by
  obtain ⟨imgs, fl, cd, cap, now, timers, log⟩ := s
  simp only at hq
  subst hq
  have hk' : k ≥ 4 := hk
  have hstep : run camera (n + 1)
      (captureSequence filter k acc ⟨imgs, fl, cd, cap, now, [], log⟩) =
      run camera n (finalized acc ⟨imgs, fl, cd, cap, now, [], log⟩) := by
    simp [run, step, captureSequence, hk', Booth.emit, Booth.schedule, extractEarliest,
      fire, max_self_add, finalized]
  rw [hstep, run_quiescent camera n _ rfl]

/-- A whole session from a state with no timer pending: sixteen turns for the
four photo cycles, one for the navigation. -/
theorem session_run {α : Type} (camera : ℕ → CssFilter → Option α) (fuel : ℕ) (s : Booth α)
    (hq : s.timers = []) (hc : s.capturing = false) (hf : 17 ≤ fuel) :
    run camera fuel (startCountdown s) =
      finalized (successes camera s.filter s.now)
        (afterPhoto s.filter (outcome camera s.filter s.now 3) 3
          (afterPhoto s.filter (outcome camera s.filter s.now 2) 2
            (afterPhoto s.filter (outcome camera s.filter s.now 1) 1
              (afterPhoto s.filter (outcome camera s.filter s.now 0) 0
                { s with capturing := true,
                         log := s.log ++ [(s.now, Event.setCapturing true)] })))) := by
  obtain ⟨n, rfl⟩ : ∃ n, fuel = n + 1 + 4 + 4 + 4 + 4 := ⟨fuel - 17, by omega⟩
  obtain ⟨imgs, fl, cd, cap, now, timers, log⟩ := s
  simp only at hq hc
  subst hq hc
  have e1 : now + 4000 + 3000 = now + 3000 + 4000 * 1 := by omega
  have e2 : now + 4000 + 4000 + 3000 = now + 3000 + 4000 * 2 := by omega
  have e3 : now + 4000 + 4000 + 4000 + 3000 = now + 3000 + 4000 * 3 := by omega
  have e0 : now + 3000 = now + 3000 + 4000 * 0 := by omega
  have hstart : startCountdown (⟨imgs, fl, cd, false, now, [], log⟩ : Booth α) =
      captureSequence fl 0 []
        ⟨imgs, fl, cd, true, now, [], log ++ [(now, Event.setCapturing true)]⟩ := by
    simp [startCountdown, Booth.emit]
  rw [hstart, photo_cycle camera _ 0 _ _ _ rfl (by decide),
    photo_cycle camera _ 1 _ _ _ rfl (by decide), photo_cycle camera _ 2 _ _ _ rfl (by decide),
    photo_cycle camera _ 3 _ _ _ rfl (by decide), finalize_run camera _ 4 _ _ _ rfl (le_refl 4)]
  simp only [afterPhoto, e1, e2, e3, outcome, successes, List.nil_append, List.append_assoc]
  rw [← e0]
  congr 1
  rcases camera (now + 3000) fl with _ | a <;>
    rcases camera (now + 3000 + 4000 * 1) fl with _ | b <;>
    rcases camera (now + 3000 + 4000 * 2) fl with _ | c <;>
    rcases camera (now + 3000 + 4000 * 3) fl with _ | d <;> rfl

theorem sessionLog_eq {α : Type} (camera : ℕ → CssFilter → Option α) (fuel : ℕ) (s : Booth α)
    (hq : s.timers = []) (hc : s.capturing = false) (hf : 17 ≤ fuel) :
    sessionLog camera fuel s =
      (s.now, Event.setCapturing true) ::
        (photoLog s.filter s.now 0 s.capturedImages (outcome camera s.filter s.now 0) ++
          (photoLog s.filter (s.now + 4000) 1
              (s.capturedImages ++ (outcome camera s.filter s.now 0).toList)
              (outcome camera s.filter s.now 1) ++
            (photoLog s.filter (s.now + 8000) 2
                (s.capturedImages ++ (outcome camera s.filter s.now 0).toList ++
                  (outcome camera s.filter s.now 1).toList)
                (outcome camera s.filter s.now 2) ++
              (photoLog s.filter (s.now + 12000) 3
                  (s.capturedImages ++ (outcome camera s.filter s.now 0).toList ++
                    (outcome camera s.filter s.now 1).toList ++
                    (outcome camera s.filter s.now 2).toList)
                  (outcome camera s.filter s.now 3) ++
                [(s.now + 16000, Event.setCountdown none),
                 (s.now + 16000, Event.setCapturing false),
                 (s.now + 16000, Event.setCapturedImages (successes camera s.filter s.now)),
                 (s.now + 16000, Event.setImages (successes camera s.filter s.now)),
                 (s.now + 16200, Event.navigate "/preview")])))) := by
  have e8 : s.now + 4000 + 4000 = s.now + 8000 := by omega
  have e12 : s.now + 8000 + 4000 = s.now + 12000 := by omega
  have e16 : s.now + 12000 + 4000 = s.now + 16000 := by omega
  have e162 : s.now + 16000 + 200 = s.now + 16200 := by omega
  rw [sessionLog, session_run camera fuel s hq hc hf]
  simp only [finalized, afterPhoto, e8, e12, e16, e162, List.append_assoc, List.singleton_append,
    List.drop_left, List.cons_append, List.nil_append]

theorem successes_length {α : Type} (camera : ℕ → CssFilter → Option α) (filter : CssFilter)
    (t : ℕ) :
    (successes camera filter t).length =
      ([outcome camera filter t 0, outcome camera filter t 1, outcome camera filter t 2,
        outcome camera filter t 3].filter Option.isSome).length := by
  simp only [successes]
  rcases outcome camera filter t 0 with _ | a <;> rcases outcome camera filter t 1 with _ | b <;>
    rcases outcome camera filter t 2 with _ | c <;>
    rcases outcome camera filter t 3 with _ | d <;> rfl

theorem published_sessionLog {α : Type} (camera : ℕ → CssFilter → Option α) (fuel : ℕ)
    (s : Booth α) (hq : s.timers = []) (hc : s.capturing = false) (hf : 17 ≤ fuel) :
    published (sessionLog camera fuel s) = [successes camera s.filter s.now] := by
  rw [sessionLog_eq camera fuel s hq hc hf]
  rcases outcome camera s.filter s.now 0 with _ | a <;>
    rcases outcome camera s.filter s.now 1 with _ | b <;>
    rcases outcome camera s.filter s.now 2 with _ | c <;>
    rcases outcome camera s.filter s.now 3 with _ | d <;>
    simp [published, photoLog]

theorem navigations_sessionLog {α : Type} (camera : ℕ → CssFilter → Option α) (fuel : ℕ)
    (s : Booth α) (hq : s.timers = []) (hc : s.capturing = false) (hf : 17 ≤ fuel) :
    navigations (sessionLog camera fuel s) = ["/preview"] := by
  rw [sessionLog_eq camera fuel s hq hc hf]
  rcases outcome camera s.filter s.now 0 with _ | a <;>
    rcases outcome camera s.filter s.now 1 with _ | b <;>
    rcases outcome camera s.filter s.now 2 with _ | c <;>
    rcases outcome camera s.filter s.now 3 with _ | d <;>
    simp [navigations, photoLog]

theorem counterValues_sessionLog {α : Type} (camera : ℕ → CssFilter → Option α) (fuel : ℕ)
    (s : Booth α) (hq : s.timers = []) (hc : s.capturing = false) (hf : 17 ≤ fuel) :
    counterValues (sessionLog camera fuel s) = [1, 2, 3, 4] := by
  rw [sessionLog_eq camera fuel s hq hc hf]
  rcases outcome camera s.filter s.now 0 with _ | a <;>
    rcases outcome camera s.filter s.now 1 with _ | b <;>
    rcases outcome camera s.filter s.now 2 with _ | c <;>
    rcases outcome camera s.filter s.now 3 with _ | d <;>
    simp [counterValues, photoLog]

theorem countdownTrace_sessionLog {α : Type} (camera : ℕ → CssFilter → Option α) (fuel : ℕ)
    (s : Booth α) (hq : s.timers = []) (hc : s.capturing = false) (hf : 17 ≤ fuel) :
    countdownTrace (sessionLog camera fuel s) =
      cycleTrace s.filter s.now 0 (outcome camera s.filter s.now 0) ++
      cycleTrace s.filter (s.now + 4000) 1 (outcome camera s.filter s.now 1) ++
      cycleTrace s.filter (s.now + 8000) 2 (outcome camera s.filter s.now 2) ++
      cycleTrace s.filter (s.now + 12000) 3 (outcome camera s.filter s.now 3) ++
      [(s.now + 16000, Event.setCountdown none)] := by
  rw [sessionLog_eq camera fuel s hq hc hf]
  rcases outcome camera s.filter s.now 0 with _ | a <;>
    rcases outcome camera s.filter s.now 1 with _ | b <;>
    rcases outcome camera s.filter s.now 2 with _ | c <;>
    rcases outcome camera s.filter s.now 3 with _ | d <;>
    simp [countdownTrace, photoLog, cycleTrace]

theorem displayed_sessionLog {α : Type} (camera : ℕ → CssFilter → Option α) (fuel : ℕ)
    (s : Booth α) (hq : s.timers = []) (hc : s.capturing = false) (hf : 17 ≤ fuel) :
    displayed (sessionLog camera fuel s) =
      [(s.now, some 3), (s.now + 1000, some 2), (s.now + 2000, some 1), (s.now + 3000, some 0),
       (s.now + 4000, some 3), (s.now + 5000, some 2), (s.now + 6000, some 1),
       (s.now + 7000, some 0),
       (s.now + 8000, some 3), (s.now + 9000, some 2), (s.now + 10000, some 1),
       (s.now + 11000, some 0),
       (s.now + 12000, some 3), (s.now + 13000, some 2), (s.now + 14000, some 1),
       (s.now + 15000, some 0),
       (s.now + 16000, none)] := by
  rw [sessionLog_eq camera fuel s hq hc hf]
  rcases outcome camera s.filter s.now 0 with _ | a <;>
    rcases outcome camera s.filter s.now 1 with _ | b <;>
    rcases outcome camera s.filter s.now 2 with _ | c <;>
    rcases outcome camera s.filter s.now 3 with _ | d <;>
    simp [displayed, photoLog, Nat.add_assoc]

/-! ## Sessions -/

/-- C4, as stated, fails: when the first capture of a session returns nothing, the
session still completes and publishes a sequence of 3 images, neither 4 nor 0. -/
theorem short_session_published :
    published (sessionLog firstShotFails 17 (Booth.idle 0 [])) = [[7000, 11000, 15000]] ∧
    ∃ imgs ∈ published (sessionLog firstShotFails 17 (Booth.idle 0 [])),
      imgs.length ≠ 4 ∧ imgs.length ≠ 0 := by
  have h : published (sessionLog firstShotFails 17 (Booth.idle 0 [])) =
      [[7000, 11000, 15000]] := by
    rw [published_sessionLog firstShotFails 17 (Booth.idle 0 []) rfl rfl (by decide)]
    rfl
  refine ⟨h, ?_⟩
  rw [h]
  exact ⟨[7000, 11000, 15000], List.mem_singleton.mpr rfl, by decide, by decide⟩

/-- C4, amended. A session started with no timer pending and run to completion
calls `setCapturedImages` exactly once, with the images of the captures that
returned one, in capture order: at most 4, and exactly 4 when all four captures
return an image. It then navigates exactly once, to "/preview", as its last call,
and leaves no timer pending. -/
theorem session_publishes_successes {α : Type} (camera : ℕ → CssFilter → Option α) (fuel : ℕ)
    (s : Booth α) (hq : s.timers = []) (hc : s.capturing = false) (hf : 17 ≤ fuel) :
    published (sessionLog camera fuel s) = [successes camera s.filter s.now] ∧
    (successes camera s.filter s.now).length ≤ 4 ∧
    ((∀ k, k < 4 → (outcome camera s.filter s.now k).isSome = true) →
      (successes camera s.filter s.now).length = 4) ∧
    navigations (sessionLog camera fuel s) = ["/preview"] ∧
    (sessionLog camera fuel s).getLast? = some (s.now + 16200, Event.navigate "/preview") ∧
    (run camera fuel (startCountdown s)).timers = [] := by
  refine ⟨published_sessionLog camera fuel s hq hc hf, ?_, ?_,
    navigations_sessionLog camera fuel s hq hc hf, ?_, ?_⟩
  · rw [successes_length]
    exact le_trans (List.length_filter_le _ _) (le_of_eq rfl)
  · intro hall
    have h0 := hall 0 (by decide)
    have h1 := hall 1 (by decide)
    have h2 := hall 2 (by decide)
    have h3 := hall 3 (by decide)
    rw [successes_length]
    simp [h0, h1, h2, h3]
  · rw [sessionLog_eq camera fuel s hq hc hf]
    rcases outcome camera s.filter s.now 0 with _ | a <;>
      rcases outcome camera s.filter s.now 1 with _ | b <;>
      rcases outcome camera s.filter s.now 2 with _ | c <;>
      rcases outcome camera s.filter s.now 3 with _ | d <;>
      simp [photoLog, List.getLast?_cons_cons]
  · rw [session_run camera fuel s hq hc hf]
    rfl

/-- From rest at time 0 with every capture returning an image, the four images
are published in capture order. -/
theorem session_publishes_successes_witness :
    ((Booth.idle 0 ([] : List ℕ)).timers = [] ∧
      (Booth.idle 0 ([] : List ℕ)).capturing = false ∧ 17 ≤ 17) ∧
    published (sessionLog everyShotWorks 17 (Booth.idle 0 [])) =
      [successes everyShotWorks (Booth.idle 0 ([] : List ℕ)).filter
        (Booth.idle 0 ([] : List ℕ)).now] ∧
    successes everyShotWorks CssFilter.none 0 = [3000, 7000, 11000, 15000] :=
  ⟨⟨rfl, rfl, le_refl 17⟩,
   (session_publishes_successes everyShotWorks 17 (Booth.idle 0 []) rfl rfl (le_refl 17)).1,
   rfl⟩

/-- C5. A session started with no timer pending and run to completion advances
`photosTaken` exactly four times, to 1, 2, 3 and 4. Each advance comes at the end of
a cycle in which the display is set to 3 and then, 1000 ms apart, to 2, 1 and 0;
the tick that sets 0 cancels the interval, makes the capture and advances the
counter, all at that same time. No value below 0 is displayed. -/
theorem countdown_three_to_zero {α : Type} (camera : ℕ → CssFilter → Option α) (fuel : ℕ)
    (s : Booth α) (hq : s.timers = []) (hc : s.capturing = false) (hf : 17 ≤ fuel) :
    counterValues (sessionLog camera fuel s) = [1, 2, 3, 4] ∧
    countdownTrace (sessionLog camera fuel s) =
      cycleTrace s.filter s.now 0 (outcome camera s.filter s.now 0) ++
      cycleTrace s.filter (s.now + 4000) 1 (outcome camera s.filter s.now 1) ++
      cycleTrace s.filter (s.now + 8000) 2 (outcome camera s.filter s.now 2) ++
      cycleTrace s.filter (s.now + 12000) 3 (outcome camera s.filter s.now 3) ++
      [(s.now + 16000, Event.setCountdown none)] ∧
    (∀ e ∈ displayed (sessionLog camera fuel s), ∀ v : ℤ, e.2 = some v → 0 ≤ v ∧ v ≤ 3) := by
  refine ⟨counterValues_sessionLog camera fuel s hq hc hf,
    countdownTrace_sessionLog camera fuel s hq hc hf, ?_⟩
  rw [displayed_sessionLog camera fuel s hq hc hf]
  intro e he v hv
  simp only [List.mem_cons, List.mem_singleton, List.not_mem_nil, or_false] at he
  rcases he with h | h | h | h | h | h | h | h | h | h | h | h | h | h | h | h | h <;>
    (subst h; simp only [Option.some.injEq] at hv; first | omega | cases hv)

/-- From rest at time 0: the counter values and the first cycle of the trace. -/
theorem countdown_three_to_zero_witness :
    ((Booth.idle 0 ([] : List ℕ)).timers = [] ∧
      (Booth.idle 0 ([] : List ℕ)).capturing = false ∧ 17 ≤ 20) ∧
    counterValues (sessionLog firstShotFails 20 (Booth.idle 0 [])) = [1, 2, 3, 4] ∧
    cycleTrace CssFilter.none 0 0 (outcome firstShotFails CssFilter.none 0 0) =
      [(0, Event.setCountdown (some 3)), (1000, Event.setCountdown (some 2)),
       (2000, Event.setCountdown (some 1)), (3000, Event.setCountdown (some 0)),
       (3000, Event.clearInterval), (3000, Event.capturePhoto CssFilter.none none),
       (3000, Event.photosTaken 1)] :=
  ⟨⟨rfl, rfl, by decide⟩,
   (countdown_three_to_zero firstShotFails 20 (Booth.idle 0 []) rfl rfl (by decide)).1,
   rfl⟩

/-- C6. In every state in which `capturing` is true, `startCountdown` changes
nothing: the React state, the clock, the pending timers and the record of calls
(captures, `setCapturedImages`, `navigate`) are all as before. -/
theorem startCountdown_guard {α : Type} (s : Booth α) (h : s.capturing = true) :
    startCountdown s = s := by
  simp [startCountdown, h]

/-- A press of the button in the middle of a session changes nothing. -/
theorem startCountdown_guard_witness :
    Booth.midSession.capturing = true ∧ startCountdown Booth.midSession = Booth.midSession :=
  ⟨rfl, startCountdown_guard Booth.midSession rfl⟩

/-- C7. Failure policy. On the tick that reaches 0, a capture that returns nothing
leaves the thumbnail list and the accumulator as they are and still schedules the
next step with `photosTaken` advanced by one; a capture that returns an image
appends it to both. Whatever the four outcomes, a session started with no timer
pending and run to completion advances the counter four times, ends with the
countdown cleared, `capturing` false and no timer pending, publishes once,
navigates once, and the published sequence is the images of the successful
captures in capture order, as many as there were successful captures. -/
theorem failure_policy {α : Type} (camera : ℕ → CssFilter → Option α) (fuel : ℕ)
    (s : Booth α) (hq : s.timers = []) (hc : s.capturing = false) (hf : 17 ≤ fuel) :
    (∀ (b : Booth α) (due k : ℕ) (filter : CssFilter) (acc : List α),
      (tick none due filter k acc 1 b).capturedImages = b.capturedImages ∧
      (tick none due filter k acc 1 b).timers =
        b.timers ++
          [{ due := b.now + 1000, task := Task.captureSequence filter (k + 1) acc }]) ∧
    (∀ (b : Booth α) (due k : ℕ) (filter : CssFilter) (acc : List α) (img : α),
      (tick (some img) due filter k acc 1 b).capturedImages = b.capturedImages ++ [img] ∧
      (tick (some img) due filter k acc 1 b).timers =
        b.timers ++
          [{ due := b.now + 1000,
             task := Task.captureSequence filter (k + 1) (acc ++ [img]) }]) ∧
    counterValues (sessionLog camera fuel s) = [1, 2, 3, 4] ∧
    (run camera fuel (startCountdown s)).countdown = none ∧
    (run camera fuel (startCountdown s)).capturing = false ∧
    (run camera fuel (startCountdown s)).timers = [] ∧
    (run camera fuel (startCountdown s)).capturedImages = successes camera s.filter s.now ∧
    published (sessionLog camera fuel s) = [successes camera s.filter s.now] ∧
    navigations (sessionLog camera fuel s) = ["/preview"] ∧
    (successes camera s.filter s.now).length =
      ([outcome camera s.filter s.now 0, outcome camera s.filter s.now 1,
        outcome camera s.filter s.now 2, outcome camera s.filter s.now 3].filter
          Option.isSome).length := by
  have hrun := session_run camera fuel s hq hc hf
  refine ⟨?_, ?_, counterValues_sessionLog camera fuel s hq hc hf, ?_, ?_, ?_, ?_,
    published_sessionLog camera fuel s hq hc hf, navigations_sessionLog camera fuel s hq hc hf,
    successes_length camera s.filter s.now⟩
  · intro b due k filter acc
    simp [tick, Booth.emit, Booth.schedule]
  · intro b due k filter acc img
    simp [tick, Booth.emit, Booth.schedule]
  · rw [hrun]; rfl
  · rw [hrun]; rfl
  · rw [hrun]; rfl
  · rw [hrun]; rfl

/-- From rest at time 0 with the first capture failing, three images are
published and the session still ends at rest. -/
theorem failure_policy_witness :
    ((Booth.idle 0 ([] : List ℕ)).timers = [] ∧
      (Booth.idle 0 ([] : List ℕ)).capturing = false ∧ 17 ≤ 17) ∧
    (run firstShotFails 17 (startCountdown (Booth.idle 0 []))).capturing = false ∧
    (run firstShotFails 17 (startCountdown (Booth.idle 0 []))).capturedImages =
      successes firstShotFails (Booth.idle 0 ([] : List ℕ)).filter
        (Booth.idle 0 ([] : List ℕ)).now ∧
    successes firstShotFails CssFilter.none 0 = [7000, 11000, 15000] :=
  ⟨⟨rfl, rfl, le_refl 17⟩,
   (failure_policy firstShotFails 17 (Booth.idle 0 []) rfl rfl (le_refl 17)).2.2.2.2.1,
   (failure_policy firstShotFails 17 (Booth.idle 0 []) rfl rfl (le_refl 17)).2.2.2.2.2.2.1,
   rfl⟩

/-! ## The filter a capture reads -/

theorem fire_setFilter {α : Type} (camera : ℕ → CssFilter → Option α) (g : CssFilter)
    (t : Timer α) (s : Booth α) :
    fire camera t (setFilter g s) = setFilter g (fire camera t s) := by
  obtain ⟨due, task⟩ := t
  cases task with
  | tick filter k acc timeLeft =>
    simp only [fire, tick, setFilter, Booth.emit, Booth.schedule]
    split_ifs
    · cases camera s.now filter <;> rfl
    · rfl
  | captureSequence filter k acc =>
    simp only [fire, captureSequence, setFilter, Booth.emit, Booth.schedule]
    split_ifs <;> rfl
  | navigate route => rfl

theorem step_setFilter {α : Type} (camera : ℕ → CssFilter → Option α) (g : CssFilter)
    (s : Booth α) :
    step camera (setFilter g s) = (step camera s).map (setFilter g) := by
  have ht : (setFilter g s).timers = s.timers := rfl
  simp only [step, ht]
  cases extractEarliest s.timers with
  | none => rfl
  | some p =>
    obtain ⟨t, rest⟩ := p
    simp only [Option.map]
    congr 1
    exact fire_setFilter camera g t { s with timers := rest, now := max s.now t.due }

/-- A press of a filter button commutes with the event loop: the timers carry the
filter their captures read. -/
theorem run_setFilter {α : Type} (camera : ℕ → CssFilter → Option α) (g : CssFilter) (n : ℕ)
    (s : Booth α) : run camera n (setFilter g s) = setFilter g (run camera n s) := by
  induction n generalizing s with
  | zero => rfl
  | succ n ih =>
    simp only [run, step_setFilter]
    cases step camera s with
    | none => rfl
    | some s' => exact ih s'

theorem run_add {α : Type} (camera : ℕ → CssFilter → Option α) (n m : ℕ) (s : Booth α) :
    run camera (n + m) s = run camera m (run camera n s) := by
  induction n generalizing s with
  | zero => simp [run]
  | succ n ih =>
    rw [Nat.add_right_comm]
    simp only [run]
    cases hs : step camera s with
    | none =>
      have hq : s.timers = [] := by
        simp only [step] at hs
        cases he : extractEarliest s.timers with
        | none =>
          cases hts : s.timers with
          | nil => rfl
          | cons t ts =>
            rw [hts] at he
            simp only [extractEarliest] at he
            cases h2 : extractEarliest ts <;> rw [h2] at he
            · cases he
            · simp only at he
              split_ifs at he
        | some p => rw [he] at hs; cases hs
      exact (run_quiescent camera m s hq).symm
    | some s' => exact ih s'

theorem captures_sessionLog {α : Type} (camera : ℕ → CssFilter → Option α) (fuel : ℕ)
    (s : Booth α) (hq : s.timers = []) (hc : s.capturing = false) (hf : 17 ≤ fuel) :
    captures (sessionLog camera fuel s) =
      [(s.now + 3000, s.filter, outcome camera s.filter s.now 0),
       (s.now + 7000, s.filter, outcome camera s.filter s.now 1),
       (s.now + 11000, s.filter, outcome camera s.filter s.now 2),
       (s.now + 15000, s.filter, outcome camera s.filter s.now 3)] := by
  rw [sessionLog_eq camera fuel s hq hc hf]
  rcases outcome camera s.filter s.now 0 with _ | a <;>
    rcases outcome camera s.filter s.now 1 with _ | b <;>
    rcases outcome camera s.filter s.now 2 with _ | c <;>
    rcases outcome camera s.filter s.now 3 with _ | d <;>
    simp [captures, photoLog, Nat.add_assoc]

theorem selfDraws_append_selfOp (ops : List DrawOp) (filter : CssFilter) :
    (Image.mk 1280 720 (ops ++ [selfOp filter])).selfDraws ≠ [] := by
  simp [Image.selfDraws, List.filter_append, selfOp]

/-- C9, as stated, fails: Start is pressed with grayscale selected and "No Filter"
is pressed right after, so the active filter is `none` before and after the first
capture; that capture still reads grayscale and its image carries the filter
pass. -/
theorem stale_filter_pass :
    (run studio 2 (setFilter CssFilter.none (startCountdown Booth.grayscaleIdle))).filter
      = CssFilter.none ∧
    (run studio 3 (setFilter CssFilter.none (startCountdown Booth.grayscaleIdle))).filter
      = CssFilter.none ∧
    ∃ img,
      captures (run studio 3 (setFilter CssFilter.none
        (startCountdown Booth.grayscaleIdle))).log =
        [(3000, CssFilter.grayscale100, some img)] ∧
      img.selfDraws ≠ [] := by
  refine ⟨?_, ?_, ?_⟩
  · rw [run_setFilter]; rfl
  · rw [run_setFilter]; rfl
  · rw [run_setFilter]
    have hs : studio 3000 CssFilter.grayscale100 =
        some (Image.mk 1280 720
          ((mirroredCropDraw roundDouble (Video.mk 1920 1080) Canvas.blank).ops ++
            [selfOp CssFilter.grayscale100])) := by
      simp [studio, capturePhoto_eq]
    refine ⟨Image.mk 1280 720
      ((mirroredCropDraw roundDouble (Video.mk 1920 1080) Canvas.blank).ops ++
        [selfOp CssFilter.grayscale100]), ?_, selfDraws_append_selfOp _ CssFilter.grayscale100⟩
    simp [run, step, startCountdown, captureSequence, Booth.emit, Booth.schedule,
      extractEarliest, fire, tick, setFilter, Booth.grayscaleIdle, captures, hs]

/-- C9, amended. The filter in question is the `filter` variable `capturePhoto`
reads. When it is `none`, the image returned is the serialised result of the
mirrored crop draw alone; for any value, the image contains a blit of the canvas
onto itself exactly when the value is not `none`, that blit then comes last,
covers the whole surface in place and runs under that filter, and the context
filter is `none` when the call returns. In a session that value is the filter
selected when `startCountdown` ran, for all four captures, and a press of a filter
button during the session leaves the record of calls as it would have been. -/
theorem filter_none_identity (fl : ℚ → ℚ) (v : Video) (c : Canvas) (filter : CssFilter) :
    (capturePhoto fl (some v) (some c) CssFilter.none).1 =
      some (mirroredCropDraw fl v c).toDataURL ∧
    (∃ img c', capturePhoto fl (some v) (some c) filter = (some img, some c') ∧
      (img.selfDraws ≠ [] ↔ filter ≠ CssFilter.none) ∧
      (filter ≠ CssFilter.none → img.ops = (mirroredCropDraw fl v c).ops ++ [selfOp filter]) ∧
      (filter = CssFilter.none → img.ops = (mirroredCropDraw fl v c).ops) ∧
      c'.context.filter = CssFilter.none) ∧
    (mirroredCropDraw fl v c).toDataURL.selfDraws = [] ∧
    (∀ (α : Type) (camera : ℕ → CssFilter → Option α) (s : Booth α) (fuel : ℕ),
      s.timers = [] → s.capturing = false → 17 ≤ fuel →
      captures (sessionLog camera fuel s) =
        [(s.now + 3000, s.filter, outcome camera s.filter s.now 0),
         (s.now + 7000, s.filter, outcome camera s.filter s.now 1),
         (s.now + 11000, s.filter, outcome camera s.filter s.now 2),
         (s.now + 15000, s.filter, outcome camera s.filter s.now 3)]) ∧
    (∀ (α : Type) (camera : ℕ → CssFilter → Option α) (s : Booth α) (g : CssFilter) (n m : ℕ),
      (run camera m (setFilter g (run camera n (startCountdown s)))).log =
        (run camera (n + m) (startCountdown s)).log) := by
  have hno : (mirroredCropDraw fl v c).toDataURL.selfDraws = [] := by
    have h := mirroredCropDraw_no_self fl v c
    simp only [Image.selfDraws, Canvas.toDataURL, List.filter_eq_nil_iff]
    intro op hop
    simp [h op hop]
  refine ⟨?_, ?_, hno, ?_, ?_⟩
  · rw [capturePhoto_eq]
    simp only [if_true, Canvas.toDataURL]
    rw [mirroredCropDraw_eq]
  · rw [capturePhoto_eq]
    refine ⟨_, _, rfl, ?_, ?_, ?_, rfl⟩
    · by_cases hf : filter = CssFilter.none
      · simp only [hf, if_true, ne_eq, not_true_eq_false, iff_false, not_not]
        exact hno
      · simp only [hf, if_false, ne_eq, not_false_eq_true, iff_true]
        exact selfDraws_append_selfOp _ filter
    · intro hf
      simp [hf]
    · intro hf
      simp [hf]
  · intro α camera s fuel hq hc hf
    exact captures_sessionLog camera fuel s hq hc hf
  · intro α camera s g n m
    rw [run_setFilter, run_add]
    rfl

/-- A session started at rest with filter `none`: all four captures read `none`. -/
theorem filter_none_identity_witness :
    ((Booth.idle 0 ([] : List ℕ)).timers = [] ∧
      (Booth.idle 0 ([] : List ℕ)).capturing = false ∧ 17 ≤ 17) ∧
    captures (sessionLog everyShotWorks 17 (Booth.idle 0 [])) =
      [((Booth.idle 0 ([] : List ℕ)).now + 3000, (Booth.idle 0 ([] : List ℕ)).filter,
          outcome everyShotWorks (Booth.idle 0 ([] : List ℕ)).filter
            (Booth.idle 0 ([] : List ℕ)).now 0),
       ((Booth.idle 0 ([] : List ℕ)).now + 7000, (Booth.idle 0 ([] : List ℕ)).filter,
          outcome everyShotWorks (Booth.idle 0 ([] : List ℕ)).filter
            (Booth.idle 0 ([] : List ℕ)).now 1),
       ((Booth.idle 0 ([] : List ℕ)).now + 11000, (Booth.idle 0 ([] : List ℕ)).filter,
          outcome everyShotWorks (Booth.idle 0 ([] : List ℕ)).filter
            (Booth.idle 0 ([] : List ℕ)).now 2),
       ((Booth.idle 0 ([] : List ℕ)).now + 15000, (Booth.idle 0 ([] : List ℕ)).filter,
          outcome everyShotWorks (Booth.idle 0 ([] : List ℕ)).filter
            (Booth.idle 0 ([] : List ℕ)).now 3)] ∧
    (Booth.idle 0 ([] : List ℕ)).filter = CssFilter.none :=
  ⟨⟨rfl, rfl, le_refl 17⟩,
   (filter_none_identity roundDouble (Video.mk 640 480) Canvas.blank CssFilter.none).2.2.2.1
     ℕ everyShotWorks (Booth.idle 0 []) 17 rfl rfl (le_refl 17),
   rfl⟩

/-! ## Camera acquisition: the attach guard -/

theorem startCamera_attached (s : Camera) (hs : s.attached = true) (result : Except String ℕ) :
    startCamera result s = s := by
  simp [startCamera, startCameraBegin, hs]

theorem startCamera_repeat (s : Camera) (hs : s.attached = true)
    (results : List (Except String ℕ)) :
    results.foldl (fun st r => startCamera r st) s = s := by
  induction results with
  | nil => rfl
  | cons r rs ih => rw [List.foldl_cons, startCamera_attached s hs r, ih]

/-- C10. In every state with a stream attached to the preview element,
`startCamera` makes no `getUserMedia` call and leaves the state (stream and
preview element included) as it is, however a request would have settled; so does
a visibility change to hidden followed by one to visible, and so does any
sequence of `startCamera` calls. Starting with the element mounted and no stream,
a successful `startCamera` attaches the stream with one `getUserMedia` call, and
any number of further calls leave the count at that one call more. -/
theorem camera_acquisition_idempotent (s : Camera) (hs : s.attached = true) :
    startCameraBegin s = (s, false) ∧
    (∀ result, startCamera result s = s) ∧
    (∀ result₁ result₂,
      handleVisibilityChange false result₂ (handleVisibilityChange true result₁ s) = s) ∧
    (∀ results : List (Except String ℕ),
      results.foldl (fun st r => startCamera r st) s = s) ∧
    (∀ (s₀ : Camera) (v₀ : VideoElement) (stream : ℕ) (results : List (Except String ℕ)),
      s₀.videoRef = some v₀ → v₀.srcObject = none →
      (startCamera (Except.ok stream) s₀).attached = true ∧
      (startCamera (Except.ok stream) s₀).acquisitions = s₀.acquisitions + 1 ∧
      (results.foldl (fun st r => startCamera r st)
        (startCamera (Except.ok stream) s₀)).acquisitions = s₀.acquisitions + 1) := by
  refine ⟨by simp [startCameraBegin, hs], startCamera_attached s hs, ?_,
    startCamera_repeat s hs, ?_⟩
  · intro r₁ r₂
    simp [handleVisibilityChange, startCamera_attached s hs]
  · intro s₀ v₀ stream results hv hsrc
    have hatt : (startCamera (Except.ok stream) s₀).attached = true := by
      simp [startCamera, startCameraBegin, startCameraSettle, Camera.attached, hv, hsrc]
    have hacq : (startCamera (Except.ok stream) s₀).acquisitions = s₀.acquisitions + 1 := by
      simp [startCamera, startCameraBegin, startCameraSettle, Camera.attached, hv, hsrc]
    refine ⟨hatt, hacq, ?_⟩
    rw [startCamera_repeat _ hatt results, hacq]

/-- A live camera ignores a hidden then visible flip, and a fresh one acquires
once over three calls. -/
theorem camera_acquisition_idempotent_witness :
    Camera.live.attached = true ∧
    handleVisibilityChange false (Except.ok 9)
      (handleVisibilityChange true (Except.ok 8) Camera.live) = Camera.live ∧
    ([Except.ok 5, Except.error "busy"].foldl (fun st r => startCamera r st)
      (startCamera (Except.ok 4) Camera.fresh)).acquisitions = Camera.fresh.acquisitions + 1 :=
  ⟨rfl,
   (camera_acquisition_idempotent Camera.live rfl).2.2.1 (Except.ok 8) (Except.ok 9),
   ((camera_acquisition_idempotent Camera.live rfl).2.2.2.2 Camera.fresh
      { srcObject := none, playCalls := 0, styleTransform := "", styleObjectFit := "" }
      4 [Except.ok 5, Except.error "busy"] rfl rfl).2.2⟩

end PhotoBooth
